import Mathlib

/-!
Verification of the ticket/billing/inventory core of the time-tracker
repository.  The Python data layer (app/crud/tickets.py, app/crud/inventory.py,
app/crud/hardware.py, app/core/barcodes.py, app/services/timecalc.py) is
shallowly embedded below: Python `Decimal` and `float` values are modelled as
exact rationals, nullable values as `Option`, database tables as lists, and
exceptions as `Except String`.  Character-level string processing is modelled
over ASCII (the regexes in the source, `[A-Za-z]` and `\D`, are ASCII-explicit;
whitespace is modelled as the ASCII whitespace class).
-/

namespace TimeTracker

/-! ## Character utilities (app/core/barcodes.py helpers) -/

/-- ASCII whitespace, the characters matched by the `\s` class on the inputs we
model (space, tab, newline, carriage return, vertical tab, form feed). -/
def isWS (c : Char) : Bool :=
  c.toNat = 32 || c.toNat = 9 || c.toNat = 10 || c.toNat = 13 ||
    c.toNat = 11 || c.toNat = 12

/-- The `[A-Za-z]` class of `_NON_ALPHA_RE`. -/
def isAlphaChar (c : Char) : Bool :=
  (65 ≤ c.toNat && c.toNat ≤ 90) || (97 ≤ c.toNat && c.toNat ≤ 122)

/-- The `[0-9]` digit class used by `_DIGIT_ONLY_RE` (ASCII model). -/
def isDigitChar (c : Char) : Bool :=
  48 ≤ c.toNat && c.toNat ≤ 57

/-- `str.upper` on a single ASCII character. -/
def upChar (c : Char) : Char :=
  if 97 ≤ c.toNat && c.toNat ≤ 122 then Char.ofNat (c.toNat - 32) else c

/-- Map every whitespace character to a single space (the substitution step of
`re.sub(r"\s+", " ", value)`). -/
def wsToSpace (c : Char) : Char :=
  if isWS c then ' ' else c

/-- Drop leading whitespace. -/
def dropWS (l : List Char) : List Char :=
  l.dropWhile (fun c => isWS c)

/-- `str.strip`: drop whitespace from both ends. -/
def trimWS (l : List Char) : List Char :=
  ((dropWS l.reverse).reverse : List Char) |> dropWS

/-- Squash adjacent spaces into one (after `wsToSpace`, this completes
`re.sub(r"\s+", " ", value)`). -/
def squeeze : List Char → List Char
  | [] => []
  | [a] => [a]
  | a :: b :: r =>
    if a == ' ' && b == ' ' then squeeze (b :: r) else a :: squeeze (b :: r)

/-- `_strip_and_collapse`: trim surrounding whitespace and collapse internal
whitespace runs to single spaces. -/
def strip_and_collapse (l : List Char) : List Char :=
  squeeze ((trimWS l).map wsToSpace)

/-- Core of `normalize_barcode` on a character list. -/
def normalizeBarcodeCore (l : List Char) : Option (List Char) :=
  let cleaned := strip_and_collapse l
  if cleaned = [] then none
  else if cleaned.any (fun c => isAlphaChar c) then some (cleaned.map upChar)
  else
    let digits := cleaned.filter (fun c => isDigitChar c)
    if digits = [] then some (cleaned.map upChar)
    else if digits.length = 12 then some ('0' :: digits)
    else some digits

/-- `normalize_barcode` from app/core/barcodes.py. -/
def normalize_barcode (raw : Option String) : Option String :=
  match raw with
  | none => none
  | some s => (normalizeBarcodeCore s.toList).map (fun l => String.mk l)

/-- Append a candidate alias if it is new and non-empty (`add` inside
`barcode_aliases`). -/
def aliasAdd (acc : List String) (cand : Option String) : List String :=
  match cand with
  | none => acc
  | some c => if c = "" || acc.contains c then acc else acc ++ [c]

/-- `barcode_aliases` from app/core/barcodes.py. -/
def barcode_aliases (raw : Option String) : List String :=
  match raw with
  | none => []
  | some s =>
    let cleaned := strip_and_collapse s.toList
    if cleaned = [] then []
    else
      let acc := aliasAdd [] (normalize_barcode (some (String.mk cleaned)))
      let acc :=
        if cleaned.any (fun c => isAlphaChar c) then acc
        else
          let digits := cleaned.filter (fun c => isDigitChar c)
          if digits = [] then acc
          else
            let acc := aliasAdd acc (some (String.mk digits))
            let acc :=
              if digits.length = 12 then aliasAdd acc (some (String.mk ('0' :: digits)))
              else acc
            if digits.length = 13 && digits.headD ' ' = '0' then
              aliasAdd acc (some (String.mk digits.tail))
            else acc
      aliasAdd acc (some (String.mk (cleaned.map upChar)))

/-! ### Lemmas about `strip_and_collapse` -/

lemma squeeze_nil_iff (l : List Char) : squeeze l = [] ↔ l = [] := by
  constructor
  · intro h
    match l with
    | [] => rfl
    | [a] => simp [squeeze] at h
    | a :: b :: r =>
      rw [squeeze] at h
      split at h
      · exact absurd (squeeze_nil_iff (b :: r) |>.mp h) (by simp)
      · simp at h
  · intro h; subst h; rfl

lemma squeeze_head? (l : List Char) : (squeeze l).head? = l.head? := by
  match l with
  | [] => rfl
  | [a] => rfl
  | a :: b :: r =>
    rw [squeeze]
    split
    · rename_i h
      simp only [Bool.and_eq_true, beq_iff_eq] at h
      rw [squeeze_head? (b :: r)]
      simp [h.1, h.2]
    · rfl

lemma squeeze_getLast? (l : List Char) : (squeeze l).getLast? = l.getLast? := by
  match l with
  | [] => rfl
  | [a] => rfl
  | a :: b :: r =>
    rw [squeeze]
    split
    · rw [squeeze_getLast? (b :: r)]
      rw [List.getLast?_cons_cons]
    · have hne : squeeze (b :: r) ≠ [] := by
        intro h; exact absurd ((squeeze_nil_iff _).mp h) (by simp)
      rw [List.getLast?_cons_cons]
      rw [← squeeze_getLast? (b :: r)]
      match hsq : squeeze (b :: r) with
      | [] => exact absurd hsq hne
      | c :: s => rw [List.getLast?_cons_cons]

/-- No two adjacent spaces. -/
def noDS : List Char → Bool
  | a :: b :: r => !(a == ' ' && b == ' ') && noDS (b :: r)
  | _ => true

lemma noDS_squeeze (l : List Char) : noDS (squeeze l) = true := by
  match l with
  | [] => rfl
  | [a] => rfl
  | a :: b :: r =>
    rw [squeeze]
    split
    · exact noDS_squeeze (b :: r)
    · rename_i h
      match hsq : squeeze (b :: r) with
      | [] => rfl
      | c :: s =>
        have hc : c = b := by
          have := squeeze_head? (b :: r)
          rw [hsq] at this
          simpa using this
        have hrest := noDS_squeeze (b :: r)
        rw [hsq] at hrest
        subst hc
        simp only [noDS, Bool.and_eq_true, Bool.not_eq_true']
        exact ⟨by simpa using h, hrest⟩

lemma squeeze_of_noDS (l : List Char) (h : noDS l = true) : squeeze l = l := by
  match l with
  | [] => rfl
  | [a] => rfl
  | a :: b :: r =>
    simp only [noDS, Bool.and_eq_true, Bool.not_eq_true'] at h
    rw [squeeze]
    rw [if_neg (by simp [h.1])]
    rw [squeeze_of_noDS (b :: r) h.2]

lemma mem_squeeze_subset {c : Char} {l : List Char} (h : c ∈ squeeze l) : c ∈ l := by
  match l with
  | [] => simpa [squeeze] using h
  | [a] => simpa [squeeze] using h
  | a :: b :: r =>
    rw [squeeze] at h
    split at h
    · exact List.mem_cons_of_mem a (mem_squeeze_subset h)
    · rcases List.mem_cons.mp h with h1 | h2
      · exact h1 ▸ List.mem_cons_self _ _
      · exact List.mem_cons_of_mem a (mem_squeeze_subset h2)

lemma dropWS_head_not_ws (l : List Char) :
    ∀ c, (dropWS l).head? = some c → isWS c = false := by
  intro c hc
  unfold dropWS at hc
  induction l with
  | nil => simp at hc
  | cons a as ih =>
    rw [List.dropWhile_cons] at hc
    split at hc
    · exact ih hc
    · rename_i hws
      simp only [List.head?_cons, Option.some.injEq] at hc
      subst hc
      simpa using hws

lemma trimWS_head_not_ws (l : List Char) :
    ∀ c, (trimWS l).head? = some c → isWS c = false := by
  intro c hc
  unfold trimWS at hc
  exact dropWS_head_not_ws _ c hc

lemma trimWS_getLast_not_ws (l : List Char) :
    ∀ c, (trimWS l).getLast? = some c → isWS c = false := by
  intro c hc
  unfold trimWS at hc
  set mid := (dropWS l.reverse).reverse with hmid
  -- dropWS keeps a suffix of its input, so the last element survives
  rcases List.dropWhile_suffix (l := mid) (fun c => isWS c) with ⟨pre, hpre⟩
  have hc' : mid.getLast? = some c := by
    rw [← hpre, List.getLast?_append]
    unfold dropWS at hc
    rw [hc]
    rfl
  rw [hmid, List.getLast?_reverse] at hc'
  exact dropWS_head_not_ws _ c hc'

lemma strip_and_collapse_ws_is_space {c : Char} {l : List Char}
    (hmem : c ∈ strip_and_collapse l) (hws : isWS c = true) : c = ' ' := by
  unfold strip_and_collapse at hmem
  have hmem2 := mem_squeeze_subset hmem
  rcases List.mem_map.mp hmem2 with ⟨d, _, hd⟩
  by_cases h : isWS d = true
  · rw [← hd]; simp [wsToSpace, h]
  · rw [← hd] at hws ⊢
    unfold wsToSpace at hws ⊢
    rw [if_neg (by simpa using h)] at hws
    rw [if_neg (by simpa using h)]
    rw [hws] at h
    simp at h

lemma wsToSpace_not_ws {d : Char} (hd : isWS d = false) :
    isWS (wsToSpace d) = false := by
  unfold wsToSpace
  rw [if_neg (by simp [hd])]
  exact hd

lemma strip_and_collapse_head_not_ws (l : List Char) :
    ∀ c, (strip_and_collapse l).head? = some c → isWS c = false := by
  intro c hc
  unfold strip_and_collapse at hc
  rw [squeeze_head?, List.head?_map] at hc
  rcases Option.map_eq_some'.mp hc with ⟨d, hd, hdc⟩
  rw [← hdc]
  exact wsToSpace_not_ws (trimWS_head_not_ws l d hd)

lemma strip_and_collapse_getLast_not_ws (l : List Char) :
    ∀ c, (strip_and_collapse l).getLast? = some c → isWS c = false := by
  intro c hc
  unfold strip_and_collapse at hc
  rw [squeeze_getLast?, List.getLast?_map] at hc
  rcases Option.map_eq_some'.mp hc with ⟨d, hd, hdc⟩
  rw [← hdc]
  exact wsToSpace_not_ws (trimWS_getLast_not_ws l d hd)

lemma dropWS_of_head_not_ws (l : List Char) (h : ∀ c, l.head? = some c → isWS c = false) :
    dropWS l = l := by
  unfold dropWS
  match l with
  | [] => rfl
  | a :: as =>
    rw [List.dropWhile_cons]
    rw [if_neg]
    simp [h a rfl]

lemma trimWS_of_ends_not_ws (l : List Char)
    (h1 : ∀ c, l.head? = some c → isWS c = false)
    (h2 : ∀ c, l.getLast? = some c → isWS c = false) :
    trimWS l = l := by
  unfold trimWS
  have hrev : dropWS l.reverse = l.reverse := by
    apply dropWS_of_head_not_ws
    intro c hc
    rw [List.head?_reverse] at hc
    exact h2 c hc
  rw [hrev, List.reverse_reverse]
  exact dropWS_of_head_not_ws l h1

lemma map_wsToSpace_fix (l : List Char) (h : ∀ c ∈ l, isWS c = true → c = ' ') :
    l.map wsToSpace = l := by
  induction l with
  | nil => rfl
  | cons a as ih =>
    simp only [List.map_cons, List.cons.injEq]
    constructor
    · unfold wsToSpace
      split
      · rename_i hws
        exact (h a (List.mem_cons_self _ _) hws).symm
      · rfl
    · exact ih (fun c hc hws => h c (List.mem_cons_of_mem a hc) hws)

/-- `_strip_and_collapse` is idempotent. -/
lemma strip_and_collapse_idem (l : List Char) :
    strip_and_collapse (strip_and_collapse l) = strip_and_collapse l := by
  have h1 : trimWS (strip_and_collapse l) = strip_and_collapse l :=
    trimWS_of_ends_not_ws _ (strip_and_collapse_head_not_ws l)
      (strip_and_collapse_getLast_not_ws l)
  have h2 : (strip_and_collapse l).map wsToSpace = strip_and_collapse l :=
    map_wsToSpace_fix _ (fun c hc hws => strip_and_collapse_ws_is_space hc hws)
  show squeeze ((trimWS (strip_and_collapse l)).map wsToSpace) = strip_and_collapse l
  rw [h1, h2]
  apply squeeze_of_noDS
  unfold strip_and_collapse
  exact noDS_squeeze _

lemma not_space_of_not_ws {a : Char} (ha : isWS a = false) : (a == ' ') = false := by
  by_contra hcontra
  rw [Bool.not_eq_false, beq_iff_eq] at hcontra
  subst hcontra
  exact absurd ha (by decide)

lemma noDS_of_no_ws (l : List Char) (h : ∀ c ∈ l, isWS c = false) : noDS l = true := by
  match l with
  | [] => rfl
  | [a] => rfl
  | a :: b :: r =>
    simp only [noDS, Bool.and_eq_true, Bool.not_eq_true']
    constructor
    · rw [not_space_of_not_ws (h a (List.mem_cons_self _ _))]
      rfl
    · exact noDS_of_no_ws (b :: r) (fun c hc => h c (List.mem_cons_of_mem a hc))

lemma strip_and_collapse_of_no_ws (l : List Char) (h : ∀ c ∈ l, isWS c = false) :
    strip_and_collapse l = l := by
  have h1 : trimWS l = l := by
    apply trimWS_of_ends_not_ws
    · intro c hc
      exact h c (by cases l with
        | nil => simp at hc
        | cons a as =>
          simp only [List.head?_cons, Option.some.injEq] at hc
          exact hc ▸ List.mem_cons_self _ _)
    · intro c hc
      exact h c (List.mem_of_mem_getLast? hc)
  have h2 : l.map wsToSpace = l := by
    apply map_wsToSpace_fix
    intro c hc hws
    rw [h c hc] at hws
    simp at hws
  unfold strip_and_collapse
  rw [h1, h2]
  exact squeeze_of_noDS l (noDS_of_no_ws l h)

/-! ### Idempotence of barcode normalization (claim C7) -/

lemma map_fix {f : Char → Char} {l : List Char} (h : ∀ c ∈ l, f c = c) :
    l.map f = l := by
  induction l with
  | nil => rfl
  | cons a as ih =>
    simp only [List.map_cons, List.cons.injEq]
    exact ⟨h a (List.mem_cons_self _ _), ih (fun c hc => h c (List.mem_cons_of_mem a hc))⟩

lemma mem_dropWS_subset {c : Char} {l : List Char} (h : c ∈ dropWS l) : c ∈ l :=
  ((List.dropWhile_suffix _).sublist).subset h

lemma mem_trimWS_subset {c : Char} {l : List Char} (h : c ∈ trimWS l) : c ∈ l := by
  unfold trimWS at h
  have h1 := mem_dropWS_subset h
  rw [List.mem_reverse] at h1
  have h2 := mem_dropWS_subset h1
  rw [List.mem_reverse] at h2
  exact h2

lemma mem_strip_and_collapse {c : Char} {l : List Char}
    (h : c ∈ strip_and_collapse l) : ∃ d ∈ l, c = wsToSpace d := by
  unfold strip_and_collapse at h
  have h1 := mem_squeeze_subset h
  rcases List.mem_map.mp h1 with ⟨d, hd, hcd⟩
  exact ⟨d, mem_trimWS_subset hd, hcd.symm⟩

lemma upChar_of_not_alpha {c : Char} (h : isAlphaChar c = false) : upChar c = c := by
  have h2 : ((97 ≤ c.toNat && c.toNat ≤ 122) : Bool) = false := by
    unfold isAlphaChar at h
    exact (Bool.or_eq_false_iff.mp h).2
  simp [upChar, h2]

lemma not_alpha_wsToSpace {d : Char} (h : isAlphaChar d = false) :
    isAlphaChar (wsToSpace d) = false := by
  unfold wsToSpace
  split
  · decide
  · exact h

lemma digit_not_ws {c : Char} (h : isDigitChar c = true) : isWS c = false := by
  unfold isDigitChar at h
  rw [Bool.and_eq_true, decide_eq_true_eq, decide_eq_true_eq] at h
  unfold isWS
  simp only [Bool.or_eq_false_iff, decide_eq_false_iff_not]
  omega

lemma digit_not_alpha {c : Char} (h : isDigitChar c = true) : isAlphaChar c = false := by
  unfold isDigitChar at h
  rw [Bool.and_eq_true, decide_eq_true_eq, decide_eq_true_eq] at h
  unfold isAlphaChar
  simp only [Bool.or_eq_false_iff, Bool.and_eq_false_iff, decide_eq_false_iff_not]
  omega

/-- Unfolded form of `normalizeBarcodeCore`. -/
lemma nbc_eq (l : List Char) : normalizeBarcodeCore l =
    (if strip_and_collapse l = [] then none
     else if (strip_and_collapse l).any (fun c => isAlphaChar c) then
       some ((strip_and_collapse l).map upChar)
     else if (strip_and_collapse l).filter (fun c => isDigitChar c) = [] then
       some ((strip_and_collapse l).map upChar)
     else if ((strip_and_collapse l).filter (fun c => isDigitChar c)).length = 12 then
       some ('0' :: (strip_and_collapse l).filter (fun c => isDigitChar c))
     else some ((strip_and_collapse l).filter (fun c => isDigitChar c))) := rfl

lemma nb_some (s : String) :
    normalize_barcode (some s) =
      (normalizeBarcodeCore s.toList).map (fun l => String.mk l) := rfl

/-- Normalization of a list of digit characters longer or shorter than 12:
the digit string is returned unchanged. -/
lemma nbc_digits (ds : List Char) (hne : ds ≠ [])
    (hdig : ∀ c ∈ ds, isDigitChar c = true) (hlen : ds.length ≠ 12) :
    normalizeBarcodeCore ds = some ds := by
  have hsc : strip_and_collapse ds = ds :=
    strip_and_collapse_of_no_ws ds (fun c hc => digit_not_ws (hdig c hc))
  have hal : ds.any (fun c => isAlphaChar c) = false := by
    rw [List.any_eq_false]
    intro c hc
    rw [digit_not_alpha (hdig c hc)]
    simp
  have hfl : ds.filter (fun c => isDigitChar c) = ds :=
    List.filter_eq_self.mpr hdig
  rw [nbc_eq, hsc, hal, hfl]
  rw [if_neg hne, if_neg (by simp), if_neg hne, if_neg hlen]

/-- `C7`: for a barcode with no alphabetic character, `normalize_barcode` is
idempotent, and a value cleaning to exactly 12 digits normalizes to those
digits with a single leading zero. -/
theorem normalize_barcode_idem_and_pad12 (b : String)
    (hna : b.toList.all (fun c => !(isAlphaChar c)) = true) :
    normalize_barcode (normalize_barcode (some b)) = normalize_barcode (some b) ∧
      (((strip_and_collapse b.toList).filter (fun c => isDigitChar c)).length = 12 →
        normalize_barcode (some b) =
          some (String.mk
            ('0' :: (strip_and_collapse b.toList).filter (fun c => isDigitChar c)))) := by
  have hnaL : ∀ c ∈ b.toList, isAlphaChar c = false := by
    intro c hc
    have := List.all_eq_true.mp hna c hc
    simpa using this
  have hclal : (strip_and_collapse b.toList).any (fun c => isAlphaChar c) = false := by
    rw [List.any_eq_false]
    intro c hc
    rcases mem_strip_and_collapse hc with ⟨d, hd, hcd⟩
    rw [hcd, not_alpha_wsToSpace (hnaL d hd)]
    simp
  have hclnal : ∀ c ∈ strip_and_collapse b.toList, isAlphaChar c = false := by
    intro c hc
    have := List.any_eq_false.mp hclal c hc
    simpa using this
  by_cases hempty : strip_and_collapse b.toList = []
  · constructor
    · rw [nb_some, nbc_eq, if_pos hempty]
      rfl
    · intro hlen
      rw [hempty] at hlen
      simp at hlen
  · have hdigmem : ∀ c ∈ (strip_and_collapse b.toList).filter (fun c => isDigitChar c),
        isDigitChar c = true := by
      intro c hc
      exact (List.mem_filter.mp hc).2
    by_cases hd0 : (strip_and_collapse b.toList).filter (fun c => isDigitChar c) = []
    · -- no digits at all: result is the upper-cased cleaned string, which is
      -- unchanged because it has no alphabetic character
      have hup : (strip_and_collapse b.toList).map upChar = strip_and_collapse b.toList :=
        map_fix (fun c hc => upChar_of_not_alpha (hclnal c hc))
      have hres : normalize_barcode (some b) =
          some (String.mk (strip_and_collapse b.toList)) := by
        rw [nb_some, nbc_eq, if_neg hempty, hclal, if_neg (by simp), if_pos hd0, hup]
        rfl
      constructor
      · rw [hres, nb_some, nbc_eq]
        have htl : (String.mk (strip_and_collapse b.toList)).toList =
            strip_and_collapse b.toList := rfl
        rw [htl, strip_and_collapse_idem, if_neg hempty, hclal, if_neg (by simp),
          if_pos hd0, hup]
        rfl
      · intro hlen
        rw [hd0] at hlen
        simp at hlen
    · -- at least one digit: result is the (possibly zero-padded) digit string
      set ds := (strip_and_collapse b.toList).filter (fun c => isDigitChar c) with hds
      by_cases h12 : ds.length = 12
      · have hres : normalize_barcode (some b) = some (String.mk ('0' :: ds)) := by
          rw [nb_some, nbc_eq, if_neg hempty, hclal, if_neg (by simp), if_neg hd0,
            ← hds, if_pos h12]
          rfl
        refine ⟨?_, fun _ => hres⟩
        rw [hres, nb_some]
        have htl : (String.mk ('0' :: ds)).toList = '0' :: ds := rfl
        rw [htl, nbc_digits ('0' :: ds) (by simp)
          (by
            intro c hc
            rcases List.mem_cons.mp hc with h | h
            · rw [h]; decide
            · exact hdigmem c (hds ▸ h))
          (by simp [h12])]
        rfl
      · have hres : normalize_barcode (some b) = some (String.mk ds) := by
          rw [nb_some, nbc_eq, if_neg hempty, hclal, if_neg (by simp), if_neg hd0,
            ← hds, if_neg h12]
          rfl
        refine ⟨?_, fun hlen => absurd (hds ▸ hlen) h12⟩
        rw [hres, nb_some]
        have htl : (String.mk ds).toList = ds := rfl
        rw [htl, nbc_digits ds (hds ▸ hd0) (fun c hc => hdigmem c (hds ▸ hc)) h12]
        rfl

/-- Witness for C7 at the concrete barcode `" 123456789012 "`. -/
theorem normalize_barcode_idem_and_pad12_witness :
    (" 123456789012 ".toList.all (fun c => !(isAlphaChar c)) = true) ∧
      (normalize_barcode (normalize_barcode (some " 123456789012 ")) =
        normalize_barcode (some " 123456789012 ") ∧
       ((strip_and_collapse " 123456789012 ".toList).filter
          (fun c => isDigitChar c)).length = 12 ∧
       normalize_barcode (some " 123456789012 ") = some "0123456789012") := by
  refine ⟨by decide, ?_⟩
  have h := normalize_barcode_idem_and_pad12 " 123456789012 " (by decide)
  refine ⟨h.1, by decide, ?_⟩
  rw [h.2 (by decide)]
  decide

/-! ## Money / decimal utilities (app/crud/tickets.py, app/crud/inventory.py)

Python `Decimal` values are modelled as exact rationals; `float` values are
also modelled as rationals (exact at every input exercised here). -/

/-- A Python value appearing in a payload slot that may hold `None`, a string,
or a number (`int`/`float`/`Decimal`). -/
inductive PyV where
  | vNone
  | vStr (s : String)
  | vNum (q : ℚ)
  deriving DecidableEq

/-- `str.strip` on a whole string. -/
def stripStr (s : String) : String := String.mk (trimWS s.toList)

/-- `value.replace("$", "").replace(",", "")`. -/
def removeDollarComma (s : String) : String :=
  String.mk (s.toList.filter (fun c => !(c == '$' || c == ',')))

/-- Numeric value of a digit list (most significant first). -/
def digitsToNat (cs : List Char) : ℕ :=
  cs.foldl (fun acc c => acc * 10 + (c.toNat - 48)) 0

/-- Exponent suffix of a decimal literal (`e`/`E`, optional sign, digits). -/
def parseExpPart (cs : List Char) (mant : ℚ) : Option ℚ :=
  match cs with
  | [] => some mant
  | c :: rest =>
    if c == 'e' || c == 'E' then
      let sr : ℤ × List Char :=
        match rest with
        | '+' :: r => (1, r)
        | '-' :: r => (-1, r)
        | r => (1, r)
      let ed := sr.2.takeWhile (fun c => isDigitChar c)
      let rem := sr.2.dropWhile (fun c => isDigitChar c)
      if ed = [] ∨ rem ≠ [] then none
      else some (mant * (10 : ℚ) ^ (sr.1 * (digitsToNat ed : ℤ)))
    else none

/-- Unsigned part of a decimal literal: digits, optional fraction, optional
exponent. -/
def parseDecBody (cs : List Char) : Option ℚ :=
  let ip := cs.takeWhile (fun c => isDigitChar c)
  let r1 := cs.dropWhile (fun c => isDigitChar c)
  match r1 with
  | [] => if ip = [] then none else some ((digitsToNat ip : ℚ))
  | '.' :: r2 =>
    let fp := r2.takeWhile (fun c => isDigitChar c)
    let r3 := r2.dropWhile (fun c => isDigitChar c)
    if ip = [] ∧ fp = [] then none
    else
      parseExpPart r3 ((digitsToNat ip : ℚ) + (digitsToNat fp : ℚ) / (10 : ℚ) ^ fp.length)
  | _ => if ip = [] then none else parseExpPart r1 ((digitsToNat ip : ℚ))

/-- `Decimal(string)`: parse a decimal literal, `none` when the constructor
would raise `InvalidOperation` (special values such as `NaN`/`Infinity` are
outside the model). -/
def parseDec (s : String) : Option ℚ :=
  match s.toList with
  | '+' :: rest => parseDecBody rest
  | '-' :: rest => (parseDecBody rest).map (fun q => -q)
  | rest => parseDecBody rest

/-- `_to_decimal` from app/crud/tickets.py. -/
def to_decimal (v : PyV) : Option ℚ :=
  match v with
  | .vNone => none
  | .vNum q => some q
  | .vStr s =>
    let cleaned := stripStr s
    if cleaned = "" then none
    else parseDec (removeDollarComma cleaned)

/-- `_money_to_float` from app/crud/tickets.py (floats modelled exactly). -/
def money_to_float (v : PyV) : Option ℚ :=
  match v with
  | .vNone => none
  | .vNum q => some q
  | .vStr s =>
    let cleaned := stripStr s
    if cleaned = "" then none
    else parseDec (removeDollarComma cleaned)

/-- `_normalize_amount` from app/crud/inventory.py (same cleaning rules). -/
def normalize_amount (v : PyV) : Option ℚ :=
  match v with
  | .vNone => none
  | .vNum q => some q
  | .vStr s =>
    let cleaned := stripStr s
    if cleaned = "" then none
    else parseDec (removeDollarComma cleaned)

/-- `Decimal.quantize(Decimal("0.01"))` under the default context: the number
of cents, rounding ties to the even integer (ROUND_HALF_EVEN). -/
def quantizeCents (q : ℚ) : ℤ :=
  let f : ℤ := ⌊100 * q⌋
  let r : ℚ := 100 * q - (f : ℚ)
  if r < 1/2 then f
  else if 1/2 < r then f + 1
  else if 2 ∣ f then f else f + 1

/-- Two-digit rendering of a value below 100. -/
def pad2 (n : ℕ) : String :=
  if n < 10 then "0" ++ Nat.repr n else Nat.repr n

/-- `format(x, "f")` for a two-fractional-digit decimal holding `c` cents. -/
def renderCents (c : ℤ) : String :=
  if c < 0 then
    "-" ++ Nat.repr (c.natAbs / 100) ++ "." ++ pad2 (c.natAbs % 100)
  else
    Nat.repr (c.toNat / 100) ++ "." ++ pad2 (c.toNat % 100)

/-- `_format_decimal` from app/crud/tickets.py. -/
def format_decimal (v : Option ℚ) : Option String :=
  v.map (fun q => renderCents (quantizeCents q))

/-- `_normalize_currency_input` from app/crud/tickets.py. -/
def normalize_currency_input (v : PyV) : Option String :=
  match v with
  | .vNone => none
  | _ =>
    match to_decimal v with
    | some d => format_decimal (some d)
    | none =>
      match v with
      | .vStr s => if stripStr s = "" then none else some (stripStr s)
      | _ => none

lemma floor_hundredths_eighth : ⌊(100 * (125/1000 : ℚ))⌋ = 12 := by
  rw [show (100 * (125/1000 : ℚ)) = 25/2 by norm_num]
  rw [Int.floor_eq_iff]
  norm_num

lemma quantizeCents_eighth : quantizeCents (125/1000) = 12 := by
  simp only [quantizeCents, floor_hundredths_eighth]
  norm_num

lemma format_decimal_eighth : format_decimal (some (125/1000)) = some "0.12" := by
  have h : format_decimal (some (125/1000)) =
      some (renderCents (quantizeCents (125/1000))) := rfl
  rw [h, quantizeCents_eighth]
  rfl

/-- `C5` counterexample: the claim predicts round-half-up, so `0.125` should
format as `"0.13"`; the code quantizes with the default ROUND_HALF_EVEN
context and produces `"0.12"`. -/
theorem format_decimal_not_half_up :
    format_decimal (some (125/1000)) ≠ some "0.13" ∧
      format_decimal (some (125/1000)) = some "0.12" := by
  rw [format_decimal_eighth]
  exact ⟨by decide, rfl⟩

/-- `C5` (amended): `_format_decimal` quantizes to cents with round-half-even
(nearest integer number of cents, ties to the even value) and renders that
quantized value; in particular `0.125` formats as `"0.12"`. -/
theorem format_decimal_round_half_even (q : ℚ) :
    |((quantizeCents q : ℚ)) - 100 * q| ≤ 1/2 ∧
      (|((quantizeCents q : ℚ)) - 100 * q| = 1/2 → 2 ∣ quantizeCents q) ∧
      format_decimal (some q) = some (renderCents (quantizeCents q)) ∧
      format_decimal (some (125/1000)) = some "0.12" := by
  have h0 : (0:ℚ) ≤ 100 * q - (⌊100 * q⌋ : ℚ) := sub_nonneg.mpr (Int.floor_le _)
  have h1 : 100 * q - (⌊100 * q⌋ : ℚ) < 1 := by
    have := Int.lt_floor_add_one (100 * q)
    linarith
  refine ⟨?_, ?_, rfl, format_decimal_eighth⟩
  · simp only [quantizeCents]
    split
    · rename_i hr
      rw [abs_le]
      constructor <;> linarith
    · split
      · rename_i hr1 hr2
        rw [abs_le]
        push_cast
        constructor <;> linarith
      · split
        · rw [abs_le]
          constructor <;> linarith
        · rw [abs_le]
          push_cast
          constructor <;> linarith
  · simp only [quantizeCents]
    split
    · rename_i hr
      intro habs
      rw [abs_eq (by norm_num)] at habs
      rcases habs with h | h <;> linarith
    · split
      · rename_i hr1 hr2
        intro habs
        rw [abs_eq (by norm_num)] at habs
        push_cast at habs
        rcases habs with h | h <;> linarith
      · split
        · rename_i heven
          intro _
          exact heven
        · rename_i hodd
          intro _
          omega

/-- Witness for the amended C5 at the tie `q = 125/1000`. -/
theorem format_decimal_round_half_even_witness :
    |((quantizeCents (125/1000) : ℚ)) - 100 * (125/1000)| = 1/2 ∧
      2 ∣ quantizeCents (125/1000) := by
  have htie : |((quantizeCents (125/1000) : ℚ)) - 100 * (125/1000)| = 1/2 := by
    rw [quantizeCents_eighth]
    rw [show ((12:ℤ) : ℚ) - 100 * (125/1000) = -(1/2) by norm_num]
    rw [abs_neg]
    exact abs_of_nonneg (by norm_num)
  exact ⟨htie, (format_decimal_round_half_even (125/1000)).2.1 htie⟩

/-! ## Time math (app/services/timecalc.py) -/

/-- Single ASCII digit value. -/
def charDigit (c : Char) : Option ℤ :=
  if isDigitChar c then some ((c.toNat : ℤ) - 48) else none

/-- Two-digit field of a timestamp. -/
def twoDig (a b : Char) : Option ℤ := do
  let x ← charDigit a
  let y ← charDigit b
  pure (10 * x + y)

/-- Days since 1970-01-01 of a proleptic Gregorian civil date (the same
calendar as Python `datetime.date`). -/
def daysFromCivil (y m d : ℤ) : ℤ :=
  let y2 := if m ≤ 2 then y - 1 else y
  let era : ℤ := (if 0 ≤ y2 then y2 else y2 - 399) / 400
  let yoe := y2 - era * 400
  let mp := (m + 9) % 12
  let doy := (153 * mp + 2) / 5 + d - 1
  let doe := yoe * 365 + yoe / 4 - yoe / 100 + doy
  era * 146097 + doe - 719468

/-- Trailing UTC-offset of an ISO timestamp in seconds (`tz` is the configured
zone's offset, applied to naive values; the source first rewrites a trailing
`Z` to `+00:00`). -/
def parseOffset (cs : List Char) (tz : ℤ) : Option ℤ :=
  match cs with
  | [] => some tz
  | ['Z'] => some 0
  | ['+', h1, h2, ':', m1, m2] => do
    let h ← twoDig h1 h2
    let m ← twoDig m1 m2
    pure (h * 3600 + m * 60)
  | ['-', h1, h2, ':', m1, m2] => do
    let h ← twoDig h1 h2
    let m ← twoDig m1 m2
    pure (-(h * 3600 + m * 60))
  | _ => none

/-- `datetime.fromisoformat` on the forms used by the app
(`YYYY-MM-DD[THH:MM[:SS]][offset]`), as an absolute second count. -/
def parseIsoCore (cs : List Char) (tz : ℤ) : Option ℤ :=
  match cs with
  | y1 :: y2 :: y3 :: y4 :: '-' :: mo1 :: mo2 :: '-' :: d1 :: d2c :: rest => do
    let a ← charDigit y1
    let b ← charDigit y2
    let c ← charDigit y3
    let d ← charDigit y4
    let year := 1000 * a + 100 * b + 10 * c + d
    let mo ← twoDig mo1 mo2
    let dy ← twoDig d1 d2c
    if mo < 1 ∨ 12 < mo ∨ dy < 1 ∨ 31 < dy then none
    else
      let dayPart := daysFromCivil year mo dy * 86400
      match rest with
      | [] => do
        let off ← parseOffset [] tz
        pure (dayPart - off)
      | 'T' :: h1 :: h2 :: ':' :: mi1 :: mi2 :: rest2 => do
        let hh ← twoDig h1 h2
        let mm ← twoDig mi1 mi2
        if 23 < hh ∨ 59 < mm then none
        else
          match rest2 with
          | ':' :: s1 :: s2 :: rest3 => do
            let ss ← twoDig s1 s2
            if 59 < ss then none
            else do
              let off ← parseOffset rest3 tz
              pure (dayPart + hh * 3600 + mm * 60 + ss - off)
          | _ => do
            let off ← parseOffset rest2 tz
            pure (dayPart + hh * 3600 + mm * 60 - off)
      | _ => none
  | _ => none

/-- `parse_iso`: `None` for falsy input, the parsed instant otherwise, raising
(`Except.error`) on unparseable input. -/
def parse_iso (ts : String) (tz : ℤ) : Except String (Option ℤ) :=
  if ts = "" then .ok none
  else
    match parseIsoCore ts.toList tz with
    | some secs => .ok (some secs)
    | none => .error "Invalid isoformat string"

/-- `compute_minutes`: whole minutes between start and end, clamped to be
non-negative. -/
def compute_minutes (start_s end_s : String) (tz : ℤ) : Except String ℤ := do
  let so ← parse_iso start_s tz
  let eo ← parse_iso end_s tz
  match so, eo with
  | some a, some b => pure (max (Int.fdiv (b - a) 60) 0)
  | _, _ => pure 0

/-- `round_minutes` from app/services/timecalc.py: clamp negatives, round
below 5 minutes down to zero, otherwise up to the next multiple of 15, and
format the rounded hours with two decimals. -/
def round_minutes (mins : ℤ) : ℤ × ℤ × String :=
  let m := if mins < 0 then 0 else mins
  let rmin : ℤ := if m < 5 then 0 else (((m.toNat + 14) / 15 * 15 : ℕ) : ℤ)
  (m, rmin, renderCents (rmin * 5 / 3))

/-- `C6`: for non-negative minutes, the rounded-minute component of
`round_minutes` is 0 below 5 minutes and otherwise the least multiple of 15
at or above the input; with the four concrete examples from the spec. -/
theorem round_minutes_rounding (m : ℤ) (hm : 0 ≤ m) :
    ((m < 5 → (round_minutes m).2.1 = 0) ∧
      (5 ≤ m → 15 ∣ (round_minutes m).2.1 ∧ m ≤ (round_minutes m).2.1 ∧
        ∀ k : ℤ, 15 ∣ k → m ≤ k → (round_minutes m).2.1 ≤ k)) ∧
      (round_minutes 4).2.1 = 0 ∧ (round_minutes 5).2.1 = 15 ∧
      (round_minutes 16).2.1 = 30 ∧ (round_minutes 0).2.1 = 0 := by
  refine ⟨⟨?_, ?_⟩, by decide, by decide, by decide, by decide⟩
  · intro h5
    unfold round_minutes
    simp only [if_neg (not_lt.mpr hm)]
    rw [if_pos h5]
  · intro h5
    unfold round_minutes
    simp only [if_neg (not_lt.mpr hm), if_neg (not_lt.mpr h5)]
    have hdm := Nat.div_add_mod (m.toNat + 14) 15
    have hmod := Nat.mod_lt (m.toNat + 14) (by norm_num : 0 < 15)
    have hmt : (m.toNat : ℤ) = m := Int.toNat_of_nonneg hm
    refine ⟨⟨((m.toNat + 14) / 15 : ℕ), by push_cast; ring⟩, ?_, ?_⟩
    · push_cast
      omega
    · intro k hk hmk
      rcases hk with ⟨j, hj⟩
      subst hj
      push_cast
      omega

/-- Witness for C6 at `m = 16`. -/
theorem round_minutes_rounding_witness :
    (0:ℤ) ≤ 16 ∧ (5:ℤ) ≤ 16 ∧ 15 ∣ (round_minutes 16).2.1 ∧
      (16:ℤ) ≤ (round_minutes 16).2.1 := by
  refine ⟨by decide, by decide, ?_, ?_⟩
  · exact ((round_minutes_rounding 16 (by decide)).1.2 (by decide)).1
  · exact ((round_minutes_rounding 16 (by decide)).1.2 (by decide)).2.1

/-! ## Data model (app/models) -/

/-- A JSON-ish value for the `contract` flag (`_coerce_bool` accepts bools,
numbers and strings). -/
inductive PyB where
  | pbNone
  | pbBool (b : Bool)
  | pbNum (q : ℚ)
  | pbStr (s : String)
  deriving DecidableEq

/-- A payload slot for an integer-like quantity: either a value `int()` can
convert, or one on which `int()` raises. -/
inductive QVal where
  | qInt (n : ℤ)
  | qBad
  deriving DecidableEq

/-- Row of the `hardware` table. -/
structure Hardware where
  id : ℤ
  barcode : String
  description : Option String := none
  acquisition_cost : Option String := none
  sales_price : Option String := none
  created_at : String := ""
  deriving DecidableEq

/-- Row of the `inventory_events` table. -/
structure InvEvent where
  id : ℤ
  hardware_id : ℤ
  change : ℤ
  source : String
  note : Option String
  created_at : String
  ticket_id : Option ℤ
  counterparty_name : Option String
  counterparty_type : Option String
  actual_cost : Option ℚ
  unit_cost : Option ℚ
  sale_price_total : Option ℚ
  sale_unit_price : Option ℚ
  deriving DecidableEq

/-- Row of the `tickets` table (attachment/project bookkeeping omitted: the
claims under verification never touch those columns). -/
structure Ticket where
  id : ℤ
  client : String
  client_key : String
  start_iso : String
  end_iso : Option String
  elapsed_minutes : ℤ
  rounded_minutes : ℤ
  rounded_hours : String
  note : Option String
  completed : ℤ
  sent : ℤ
  invoice_number : Option String
  created_at : String
  minutes : ℤ
  entry_type : Option String
  hardware_id : Option ℤ
  hardware_description : Option String
  hardware_sales_price : Option String
  hardware_barcode : Option String
  hardware_quantity : Option ℤ
  flat_rate_amount : Option String
  flat_rate_quantity : Option ℤ
  invoiced_total : Option String
  calculated_value : Option String
  deriving DecidableEq

/-- One entry of the external client directory. -/
structure ClientEntry where
  name : Option String := none
  display_name : Option String := none
  support_rate : PyV := .vNone
  contract : PyB := .pbNone
  deriving DecidableEq

/-- The client directory: key to entry. -/
def ClientTable := List (String × ClientEntry)

/-- The relational store plus the id/clock generators the engine consumes. -/
structure DB where
  tickets : List Ticket
  hardware : List Hardware
  events : List InvEvent
  next_ticket_id : ℤ
  next_event_id : ℤ
  now : String
  deriving DecidableEq

/-- External configuration consumed by the engine: client directory and the
configured timezone offset (in seconds). -/
structure Ctx where
  table : ClientTable
  tz : ℤ

/-- A `dict` payload for ticket create/update over the columns the claims
exercise.  The outer `Option` is key presence (`"k" in payload`), the inner
value is what `payload["k"]` holds. -/
structure Payload where
  client_key : Option (Option String) := none
  client : Option (Option String) := none
  start_iso : Option (Option String) := none
  end_iso : Option (Option String) := none
  note : Option (Option String) := none
  sent : Option ℤ := none
  invoice_number : Option (Option String) := none
  invoiced_total : Option PyV := none
  created_at : Option (Option String) := none
  entry_type : Option (Option String) := none
  hardware_id : Option (Option ℤ) := none
  hardware_barcode : Option (Option String) := none
  hardware_description : Option (Option String) := none
  hardware_sales_price : Option (Option String) := none
  hardware_quantity : Option (Option QVal) := none
  flat_rate_amount : Option PyV := none
  flat_rate_quantity : Option (Option QVal) := none

/-! ## Truthiness and small Python helpers -/

/-- Truthiness of an optional string (`None` and `""` are falsy). -/
def strFalsy (o : Option String) : Bool :=
  match o with
  | none => true
  | some s => s = ""

/-- `a or b` for optional strings. -/
def orStr (a b : Option String) : Option String :=
  if strFalsy a then b else a

/-- Truthiness of a nullable integer (`None` and `0` are falsy). -/
def intTruthy (o : Option ℤ) : Bool :=
  match o with
  | none => false
  | some n => n ≠ 0

/-- `o or d` for a nullable integer. -/
def orIntD (o : Option ℤ) (d : ℤ) : ℤ :=
  match o with
  | none => d
  | some n => if n = 0 then d else n

/-- `a or b or c or 0` on integers (used for the minutes fallback chain). -/
def orI (a b : ℤ) : ℤ := if a = 0 then b else a

/-- Lift an optional string column into a `PyV`. -/
def pyOfStrOpt (o : Option String) : PyV :=
  match o with
  | none => .vNone
  | some s => .vStr s

/-- Lift an optional rational (a Python float-or-None) into a `PyV`. -/
def pyOfOpt (o : Option ℚ) : PyV :=
  match o with
  | none => .vNone
  | some q => .vNum q

/-- `value.strip() or None` for an optional string. -/
def strip_or_none (v : Option String) : Option String :=
  match v with
  | none => none
  | some s => if stripStr s = "" then none else some (stripStr s)

/-- `isinstance(x, str) and x.strip()` truthiness used for the sticky
`invoiced_total` check. -/
def strTruthyOpt (o : Option String) : Bool :=
  match o with
  | none => false
  | some s => stripStr s ≠ ""

/-- ASCII `str.casefold`/`lower` on one character. -/
def lowChar (c : Char) : Char :=
  if 65 ≤ c.toNat && c.toNat ≤ 90 then Char.ofNat (c.toNat + 32) else c

/-- ASCII `str.lower` on a string. -/
def lowerStr (s : String) : String := String.mk (s.toList.map lowChar)

/-- Does the character list start with the given pattern? -/
def listStarts : List Char → List Char → Bool
  | _, [] => true
  | [], _ :: _ => false
  | a :: as, b :: bs => a == b && listStarts as bs

/-- `_coerce_bool` from app/crud/tickets.py. -/
def coerce_bool (v : PyB) : Bool :=
  match v with
  | .pbNone => false
  | .pbBool b => b
  | .pbNum q => q ≠ 0
  | .pbStr s =>
    let n := lowerStr (stripStr s)
    n = "true" || n = "1" || n = "yes" || n = "y"

/-- Replace the first element satisfying `p` (in-place row update). -/
def mapFirst {α : Type} (p : α → Bool) (f : α → α) : List α → List α
  | [] => []
  | a :: as => if p a then f a :: as else a :: mapFirst p f as

/-- Remove the first element satisfying `p` (single-row delete). -/
def removeFirst {α : Type} (p : α → Bool) : List α → List α
  | [] => []
  | a :: as => if p a then as else a :: removeFirst p as

/-! ## Client directory (app/services/clientsync.py) -/

/-- `table.get(client_key)`. -/
def tableGet (t : ClientTable) (k : String) : Option ClientEntry :=
  (List.find? (fun p => p.1 == k) t).map (fun p => p.2)

/-- `resolve_client_name`: entry name, else display name, else the key. -/
def resolve_client_name (table : ClientTable) (k : String) : Option String :=
  match tableGet table k with
  | none => none
  | some e => orStr e.name (orStr e.display_name (some k))

/-- `_support_rate_for_client` from app/crud/tickets.py. -/
def support_rate_for_client (k : Option String) (table : ClientTable) : Option ℚ :=
  match k with
  | none => none
  | some key =>
    if key = "" then none
    else
      match tableGet table key with
      | none => none
      | some e => to_decimal e.support_rate

/-- `_is_contract_client` from app/crud/tickets.py. -/
def is_contract_client (k : Option String) (table : ClientTable) : Bool :=
  match k with
  | none => false
  | some key =>
    if key = "" then false
    else
      match tableGet table key with
      | none => false
      | some e => coerce_bool e.contract

/-- The contract-client note banner. -/
def contractNotePrefixStr : String := "Add to monthly - but do not assign value"

/-- `_prepend_contract_note` from app/crud/tickets.py. -/
def prepend_contract_note (note : Option String) (contract_client : Bool) : Option String :=
  if !contract_client then note
  else
    let existing := note.getD ""
    if existing ≠ "" then
      if listStarts (dropWS existing.toList) contractNotePrefixStr.toList then some existing
      else some (contractNotePrefixStr ++ "\n" ++ existing)
    else some contractNotePrefixStr

/-! ## Inventory ledger (app/crud/inventory.py) -/

/-- `get_event_by_ticket`: first event whose `ticket_id` matches. -/
def get_event_by_ticket (evs : List InvEvent) (tid : ℤ) : Option InvEvent :=
  evs.find? (fun e => e.ticket_id == some tid)

/-- `_total_value`: unit price times `abs(change)`, `None` on no unit or zero
quantity. -/
def total_value (unit : Option ℚ) (change : ℤ) : Option ℚ :=
  match unit with
  | none => none
  | some u => if change = 0 then none else some (u * (change.natAbs : ℚ))

/-- Keyword arguments of `record_inventory_event`. -/
structure RecordArgs where
  hardware_id : ℤ
  change : ℤ
  source : String := "manual"
  note : Option String := none
  ticket_id : Option ℤ := none
  counterparty_name : Option String := none
  counterparty_type : Option String := none
  actual_cost : PyV := .vNone
  sale_price : PyV := .vNone

/-- `record_inventory_event` from app/crud/inventory.py. -/
def record_inventory_event (db : DB) (a : RecordArgs) : DB × Except String InvEvent :=
  if a.change = 0 then (db, .error "change must be non-zero")
  else
    let name := strip_or_none a.counterparty_name
    let ctype := strip_or_none a.counterparty_type
    let unit_cost := normalize_amount a.actual_cost
    let unit_sale := normalize_amount a.sale_price
    let cost_total := total_value unit_cost a.change
    let sale_total := total_value unit_sale a.change
    let e : InvEvent :=
      { id := db.next_event_id
        hardware_id := a.hardware_id
        change := a.change
        source := a.source
        note := a.note
        created_at := db.now
        ticket_id := a.ticket_id
        counterparty_name := name
        counterparty_type := ctype
        actual_cost := cost_total
        unit_cost := unit_cost
        sale_price_total := sale_total
        sale_unit_price := unit_sale }
    ({ db with events := db.events ++ [e], next_event_id := db.next_event_id + 1 }, .ok e)

/-- `delete_ticket_event` from app/crud/inventory.py. -/
def delete_ticket_event (db : DB) (tid : ℤ) : DB :=
  match get_event_by_ticket db.events tid with
  | none => db
  | some _ =>
    { db with events := removeFirst (fun e => e.ticket_id == some tid) db.events }

/-- `ensure_ticket_usage_event` from app/crud/inventory.py: idempotent upsert
keyed by `ticket_id`; the stored change is always `-abs(quantity)`. -/
def ensure_ticket_usage_event (db : DB) (tid hid : ℤ) (quantity : ℤ)
    (note : Option String) (sale_price acquisition_cost : PyV) :
    DB × Except String InvEvent :=
  let change : ℤ := -((quantity.natAbs : ℤ))
  let unit_sale := normalize_amount sale_price
  let unit_cost := normalize_amount acquisition_cost
  let sale_total := total_value unit_sale change
  let cost_total := total_value unit_cost change
  match get_event_by_ticket db.events tid with
  | some existing =>
    let upd := fun (e : InvEvent) =>
      { e with hardware_id := hid, change := change, source := "ticket",
               note := note, counterparty_name := none, counterparty_type := none,
               actual_cost := cost_total, unit_cost := unit_cost,
               sale_price_total := sale_total, sale_unit_price := unit_sale }
    ({ db with events := mapFirst (fun e => e.ticket_id == some tid) upd db.events },
      .ok (upd existing))
  | none =>
    record_inventory_event db
      { hardware_id := hid, change := change, source := "ticket", note := note,
        ticket_id := some tid, counterparty_name := none, counterparty_type := none,
        actual_cost := pyOfOpt unit_cost, sale_price := pyOfOpt unit_sale }

/-- Unit costs feeding `average_unit_cost` in `_attach_inventory_metrics`
(app/crud/hardware.py): positive, vendor-typed events of the item with a
non-null `unit_cost`. -/
def vendor_unit_costs (evs : List InvEvent) (hid : ℤ) : List ℚ :=
  (evs.filter (fun e =>
    e.hardware_id == hid && e.counterparty_type == some "vendor" &&
      decide (0 < e.change))).filterMap (fun e => e.unit_cost)

/-- `average_unit_cost` as computed by `_attach_inventory_metrics`. -/
def average_unit_cost (evs : List InvEvent) (hid : ℤ) : Option ℚ :=
  let cs := vendor_unit_costs evs hid
  if cs = [] then none else some (cs.sum / (cs.length : ℚ))

/-! ## Ticket/billing engine (app/crud/tickets.py) -/

/-- `(ticket.entry_type or "time")`. -/
def entryTypeOr (o : Option String) : String :=
  match o with
  | none => "time"
  | some s => if s = "" then "time" else s

/-- `_calculate_ticket_amount` from app/crud/tickets.py. -/
def calculate_ticket_amount (t : Ticket) (table : ClientTable) : Option ℚ :=
  let entry_type := lowerStr (entryTypeOr t.entry_type)
  if entry_type = "hardware" then
    match to_decimal (pyOfStrOpt t.hardware_sales_price) with
    | none => none
    | some unit_price => some (unit_price * ((orIntD t.hardware_quantity 1 : ℤ) : ℚ))
  else if entry_type = "deployment_flat_rate" then
    match to_decimal (pyOfStrOpt t.flat_rate_amount) with
    | none => none
    | some unit_price => some (unit_price * ((orIntD t.flat_rate_quantity 1 : ℤ) : ℚ))
  else
    let hours0 := to_decimal (.vStr t.rounded_hours)
    let hours : Option ℚ :=
      match hours0 with
      | some h => some h
      | none =>
        let minutes := orI t.rounded_minutes (orI t.minutes t.elapsed_minutes)
        if minutes = 0 then none else some ((minutes : ℚ) / 60)
    match hours, support_rate_for_client (some t.client_key) table with
    | some h, some r => some (h * r)
    | _, _ => none

/-- `_ensure_calculated_fields` from app/crud/tickets.py: refresh
`calculated_value`, optionally seed a blank `invoiced_total`; returns the
updated row and whether anything changed. -/
def ensure_calculated_fields (t : Ticket) (initialize_invoice : Bool)
    (table : ClientTable) : Ticket × Bool :=
  let formatted := format_decimal (calculate_ticket_amount t table)
  let p1 : Ticket × Bool :=
    if t.calculated_value ≠ formatted then ({ t with calculated_value := formatted }, true)
    else (t, false)
  if initialize_invoice then
    if !(strTruthyOpt p1.1.invoiced_total) && formatted ≠ none then
      ({ p1.1 with invoiced_total := formatted }, true)
    else p1
  else p1

/-- `db.get(Hardware, id)`. -/
def db_get_hardware (db : DB) (hid : ℤ) : Option Hardware :=
  db.hardware.find? (fun h => h.id == hid)

/-- First catalog row whose stored barcode equals the candidate. -/
def find_hw_by_barcode (db : DB) (bc : String) : Option Hardware :=
  db.hardware.find? (fun h => h.barcode == bc)

/-- Try each alias in order, first catalog hit wins. -/
def firstAliasHit (db : DB) : List String → Option Hardware
  | [] => none
  | c :: cs =>
    match find_hw_by_barcode db c with
    | some h => some h
    | none => firstAliasHit db cs

/-- `_resolve_hardware` from app/crud/tickets.py. -/
def resolve_hardware (db : DB) (p : Payload) (fallback_id : Option ℤ) :
    Option Hardware :=
  let hw_id : Option ℤ :=
    match p.hardware_id with
    | some v => v
    | none => fallback_id
  let barcode : Option String :=
    match p.hardware_barcode with
    | some v => v
    | none => none
  match firstAliasHit db (barcode_aliases barcode) with
  | some hw => some hw
  | none =>
    if intTruthy hw_id then db_get_hardware db (hw_id.getD 0) else none

/-- `_apply_time_math` from app/crud/tickets.py. -/
def apply_time_math (t : Ticket) (p : Payload) (tz : ℤ) : Except String Ticket :=
  let start_v : Option String :=
    match p.start_iso with
    | some v => v
    | none => some t.start_iso
  let end_v : Option String :=
    match p.end_iso with
    | some v => v
    | none => t.end_iso
  let base : Except String ℤ :=
    match start_v, end_v with
    | some s, some e =>
      if s ≠ "" && e ≠ "" then compute_minutes s e tz else .ok 0
    | _, _ => .ok 0
  match base with
  | .error e => .error e
  | .ok base_minutes =>
    let r := round_minutes base_minutes
    .ok { t with elapsed_minutes := base_minutes, minutes := r.1,
                 rounded_minutes := r.2.1, rounded_hours := r.2.2 }

/-- Strip-or-drop of an explicit string override. -/
def overrideOf (v : Option (Option String)) : Option String :=
  match v with
  | some (some s) => if stripStr s = "" then none else some (stripStr s)
  | _ => none

/-- `_apply_hardware_link` from app/crud/tickets.py. -/
def apply_hardware_link (db : DB) (t : Ticket) (p : Payload) : Except String Ticket :=
  let eff : Option String :=
    match p.entry_type with
    | some v => v
    | none => t.entry_type
  if eff ≠ some "hardware" then
    pure { t with hardware_id := none, hardware_description := none,
                  hardware_sales_price := none, hardware_barcode := none,
                  hardware_quantity := none }
  else
    let hw := resolve_hardware db p t.hardware_id
    let desc_override := overrideOf p.hardware_description
    let price_override := overrideOf p.hardware_sales_price
    let barcode_raw : Option String :=
      match p.hardware_barcode with
      | some v => v
      | none => none
    let barcode_override :=
      match normalize_barcode barcode_raw with
      | some nb => some nb
      | none =>
        match barcode_raw with
        | some s => if stripStr s = "" then none else some (stripStr s)
        | none => none
    let t1 :=
      match hw with
      | some h =>
        { t with hardware_id := some h.id, hardware_barcode := some h.barcode,
                 hardware_description :=
                   (match desc_override with
                    | some d => some d
                    | none => h.description),
                 hardware_sales_price :=
                   (match price_override with
                    | some pr => some pr
                    | none => h.sales_price) }
      | none =>
        { t with hardware_id := none, hardware_barcode := barcode_override,
                 hardware_description := desc_override,
                 hardware_sales_price := price_override }
    let qty_value : Option QVal :=
      match p.hardware_quantity with
      | some (some q) => some q
      | _ => none
    match qty_value with
    | some QVal.qBad => .error "hardware_quantity must be a positive integer"
    | some (QVal.qInt n) =>
      if n ≤ 0 then .error "hardware_quantity must be a positive integer"
      else pure { t1 with hardware_quantity := some n }
    | none =>
      let n := orIntD t1.hardware_quantity 1
      if n ≤ 0 then .error "hardware_quantity must be a positive integer"
      else pure { t1 with hardware_quantity := some n }

/-- `_apply_flat_rate_fields` from app/crud/tickets.py. -/
def apply_flat_rate_fields (t : Ticket) (p : Payload) : Except String Ticket :=
  let eff : Option String :=
    match p.entry_type with
    | some v => v
    | none => t.entry_type
  if eff ≠ some "deployment_flat_rate" then
    pure { t with flat_rate_amount := none, flat_rate_quantity := none }
  else
    let amount_source : PyV :=
      match p.flat_rate_amount with
      | some v => v
      | none => pyOfStrOpt t.flat_rate_amount
    match normalize_currency_input amount_source with
    | none => .error "flat_rate_amount is required for deployment flat rate tickets"
    | some na =>
      if na = "" then .error "flat_rate_amount is required for deployment flat rate tickets"
      else
        let qty_value : Option QVal :=
          match p.flat_rate_quantity with
          | some (some q) => some q
          | _ => none
        match qty_value with
        | some QVal.qBad => .error "flat_rate_quantity must be a positive integer"
        | some (QVal.qInt n) =>
          if n ≤ 0 then .error "flat_rate_quantity must be a positive integer"
          else pure { t with flat_rate_amount := some na, flat_rate_quantity := some n }
        | none =>
          let n := orIntD t.flat_rate_quantity 1
          if n ≤ 0 then .error "flat_rate_quantity must be a positive integer"
          else pure { t with flat_rate_amount := some na, flat_rate_quantity := some n }

/-- `_apply_client_link` from app/crud/tickets.py. -/
def apply_client_link (table : ClientTable) (t : Ticket) (p : Payload) :
    Except String Ticket :=
  let client_key : Option String :=
    match p.client_key with
    | some v => v
    | none => some t.client_key
  match client_key with
  | none => .error "client_key is required"
  | some k =>
    if k = "" then .error "client_key is required"
    else
      let pclient : Option String :=
        match p.client with
        | some v => v
        | none => none
      let client_name := orStr pclient (resolve_client_name table k)
      if strFalsy client_name then .error "Unknown client_key"
      else pure { t with client_key := k, client := client_name.getD "" }

/-- The `unit_sale * quantity` total passed to the inventory sync. -/
def sync_sale_total (t : Ticket) : Option ℚ :=
  match money_to_float (pyOfStrOpt t.hardware_sales_price) with
  | some u => some (u * ((orIntD t.hardware_quantity 1 : ℤ) : ℚ))
  | none => none

/-- The `unit_cost * quantity` total passed to the inventory sync. -/
def sync_cost_total (db : DB) (t : Ticket) : Option ℚ :=
  match
    (match db_get_hardware db (t.hardware_id.getD 0) with
     | some hw => money_to_float (pyOfStrOpt hw.acquisition_cost)
     | none => none) with
  | some u => some (u * ((orIntD t.hardware_quantity 1 : ℤ) : ℚ))
  | none => none

/-- Post-commit inventory synchronization shared by create and update: on a
hardware ticket with a truthy link, upsert the usage event with
`unit x quantity` totals. -/
def sync_ticket_inventory (db : DB) (t : Ticket) : DB × Except String Unit :=
  if t.entry_type = some "hardware" && intTruthy t.hardware_id then
    let r := ensure_ticket_usage_event db t.id (t.hardware_id.getD 0)
      (orIntD t.hardware_quantity 1) t.note
      (pyOfOpt (sync_sale_total t)) (pyOfOpt (sync_cost_total db t))
    (r.1, r.2.map (fun _ => ()))
  else (db, .ok ())

/-- `create_entry` from app/crud/tickets.py.  Errors carry the store as it was
at raise time (Python leaves committed state untouched on an exception). -/
def create_entry (ctx : Ctx) (db : DB) (p : Payload) : DB × Except String Ticket :=
  let ckPresentTruthy : Bool :=
    match p.client_key with
    | some (some k) => k ≠ ""
    | _ => false
  if !ckPresentTruthy then (db, .error "client_key is required")
  else
    match p.start_iso with
    | none => (db, .error "KeyError: start_iso")
    | some start_val =>
      let invoice_total_value :=
        normalize_currency_input
          (match p.invoiced_total with
           | some v => v
           | none => .vNone)
      let ck :=
        match p.client_key with
        | some (some k) => k
        | _ => ""
      let note_value : Option String :=
        match p.note with
        | some v => v
        | none => none
      let note_value :=
        if is_contract_client (some ck) ctx.table then
          prepend_contract_note note_value true
        else note_value
      let t : Ticket :=
        { id := db.next_ticket_id
          client := ""
          client_key := ck
          start_iso := start_val.getD ""
          end_iso :=
            (match p.end_iso with
             | some v => v
             | none => none)
          elapsed_minutes := 0, rounded_minutes := 0, rounded_hours := "", minutes := 0
          note := note_value
          completed := 0
          sent := (match p.sent with | some n => n | none => 0)
          invoice_number :=
            (match p.invoice_number with
             | some v => v
             | none => none)
          created_at :=
            (match p.created_at with
             | some (some s) => if s = "" then db.now else s
             | _ => db.now)
          entry_type :=
            (match p.entry_type with
             | some v => v
             | none => some "time")
          hardware_id :=
            (match p.hardware_id with
             | some v => v
             | none => none)
          hardware_description := none, hardware_sales_price := none
          hardware_barcode := none, hardware_quantity := none
          flat_rate_amount := none, flat_rate_quantity := none
          invoiced_total := invoice_total_value
          calculated_value := none }
      match apply_client_link ctx.table t p with
      | .error e => (db, .error e)
      | .ok t =>
        match apply_time_math t p ctx.tz with
        | .error e => (db, .error e)
        | .ok t =>
          match apply_hardware_link db t p with
          | .error e => (db, .error e)
          | .ok t =>
            match apply_flat_rate_fields t p with
            | .error e => (db, .error e)
            | .ok t =>
              let t := (ensure_calculated_fields t true ctx.table).1
              let db :=
                { db with tickets := db.tickets ++ [t],
                          next_ticket_id := db.next_ticket_id + 1 }
              let r := sync_ticket_inventory db t
              match r.2 with
              | .ok _ => (r.1, .ok t)
              | .error e => (r.1, .error e)

/-- Trigger set for re-running the hardware/flat-rate field sync on update. -/
def hwTrigger (p : Payload) : Bool :=
  p.entry_type.isSome || p.hardware_id.isSome || p.hardware_barcode.isSome ||
    p.hardware_quantity.isSome || p.hardware_sales_price.isSome ||
    p.hardware_description.isSome || p.flat_rate_amount.isSome ||
    p.flat_rate_quantity.isSome

/-- The generic `setattr` loop of `update_ticket` over the modelled columns
(`client`/`client_key` are skipped there; quantity columns are always
rewritten by the subsequent field sync, whose trigger fires whenever they are
present, so their transient raw assignment is not observable). -/
def assignPayload (t : Ticket) (p : Payload) (contract : Bool) : Ticket :=
  { t with
    start_iso :=
      (match p.start_iso with
       | some (some s) => s
       | some none => ""
       | none => t.start_iso)
    end_iso :=
      (match p.end_iso with
       | some v => v
       | none => t.end_iso)
    note :=
      (match p.note with
       | some v => if contract then prepend_contract_note v true else v
       | none => t.note)
    sent := (match p.sent with | some n => n | none => t.sent)
    invoice_number :=
      (match p.invoice_number with
       | some v => v
       | none => t.invoice_number)
    invoiced_total :=
      (match p.invoiced_total with
       | some v => normalize_currency_input v
       | none => t.invoiced_total)
    created_at :=
      (match p.created_at with
       | some (some s) => s
       | _ => t.created_at)
    entry_type :=
      (match p.entry_type with
       | some v => v
       | none => t.entry_type)
    hardware_id :=
      (match p.hardware_id with
       | some v => v
       | none => t.hardware_id)
    hardware_description :=
      (match p.hardware_description with
       | some v => v
       | none => t.hardware_description)
    hardware_sales_price :=
      (match p.hardware_sales_price with
       | some v => v
       | none => t.hardware_sales_price)
    hardware_barcode :=
      (match p.hardware_barcode with
       | some (some s) => if s = "" then none else some s
       | some none => none
       | none => t.hardware_barcode) }

/-- `update_ticket` from app/crud/tickets.py. -/
def update_ticket (ctx : Ctx) (db : DB) (tid : ℤ) (p : Payload) :
    DB × Except String Ticket :=
  match db.tickets.find? (fun t => t.id == tid) with
  | none => (db, .error "ticket not found")
  | some t0 =>
    let step1 : Except String Ticket :=
      if p.client_key.isSome || p.client.isSome then apply_client_link ctx.table t0 p
      else .ok t0
    match step1 with
    | .error e => (db, .error e)
    | .ok t1 =>
      let contract :=
        is_contract_client
          (match p.client_key with
           | some v => v
           | none => some t1.client_key) ctx.table
      let t2 := assignPayload t1 p contract
      let step2 : Except String Ticket :=
        if p.start_iso.isSome || p.end_iso.isSome then apply_time_math t2 p ctx.tz
        else .ok t2
      match step2 with
      | .error e => (db, .error e)
      | .ok t3 =>
        let step3 : Except String Ticket :=
          if hwTrigger p then
            match apply_hardware_link db t3 p with
            | .error e => .error e
            | .ok t4 => apply_flat_rate_fields t4 p
          else .ok t3
        match step3 with
        | .error e => (db, .error e)
        | .ok t5 =>
          let initialize_invoice := !(strTruthyOpt t5.invoiced_total)
          let t6 := (ensure_calculated_fields t5 initialize_invoice ctx.table).1
          let db1 :=
            { db with tickets := mapFirst (fun x => x.id == tid) (fun _ => t6) db.tickets }
          if t6.entry_type = some "hardware" && intTruthy t6.hardware_id then
            let r := sync_ticket_inventory db1 t6
            match r.2 with
            | .ok _ => (r.1, .ok t6)
            | .error e => (r.1, .error e)
          else
            (delete_ticket_event db1 t6.id, .ok t6)

/-- A single engine mutation: create with a payload, or update a ticket id
with a payload. -/
inductive Op where
  | create (p : Payload)
  | update (tid : ℤ) (p : Payload)

/-- Run one engine mutation. -/
def run_op (ctx : Ctx) (db : DB) : Op → DB × Except String Ticket
  | .create p => create_entry ctx db p
  | .update tid p => update_ticket ctx db tid p

/-! ## Listings (app/crud/tickets.py) -/

/-- Insert into a list sorted by `created_at` descending. -/
def insertByCreatedDesc (t : Ticket) : List Ticket → List Ticket
  | [] => [t]
  | a :: as =>
    if decide (a.created_at < t.created_at) then t :: a :: as
    else a :: insertByCreatedDesc t as

/-- `ORDER BY created_at DESC`. -/
def sortByCreatedDesc (ts : List Ticket) : List Ticket :=
  ts.foldr insertByCreatedDesc []

/-- `list_tickets` from app/crud/tickets.py: page the rows, refresh computed
fields on each fetched row, commit when anything changed.  Returns the store,
whether a commit was issued, and the rows handed back to the caller. -/
def list_tickets (ctx : Ctx) (db : DB) (limit offset : ℕ) :
    DB × Bool × List Ticket :=
  let sorted := sortByCreatedDesc db.tickets
  let page := (sorted.drop offset).take limit
  let processed := page.map (fun t => ensure_calculated_fields t true ctx.table)
  let newRows := processed.map Prod.fst
  let changed := processed.any Prod.snd
  ({ db with tickets := sorted.take offset ++ newRows ++ ((sorted.drop offset).drop limit) },
    changed, newRows)

/-- The `WHERE` filter of `list_active_tickets`. -/
def activeFilter (ck : Option String) (t : Ticket) : Bool :=
  (t.end_iso == none && (t.entry_type == none || t.entry_type == some "time")) &&
    (match ck with
     | some k => if k ≠ "" then t.client_key == k else true
     | none => true)

/-- `list_active_tickets` from app/crud/tickets.py. -/
def list_active_tickets (ctx : Ctx) (db : DB) (ck : Option String)
    (limit offset : ℕ) : DB × Bool × List Ticket :=
  let base := db.tickets.filter (activeFilter ck)
  let sorted := sortByCreatedDesc base
  let page := (sorted.drop offset).take limit
  let processed := page.map (fun t => ensure_calculated_fields t true ctx.table)
  let newRows := processed.map Prod.fst
  let changed := processed.any Prod.snd
  ({ db with tickets :=
      db.tickets.map (fun t =>
        match newRows.find? (fun x => x.id == t.id) with
        | some nt => nt
        | none => t) },
    changed, newRows)

/-! ## Ledger bookkeeping lemmas -/

/-- Events referencing a given ticket. -/
def eventsFor (db : DB) (tid : ℤ) : List InvEvent :=
  db.events.filter (fun e => e.ticket_id == some tid)

lemma filter_eq_nil_of_find?_eq_none {α} (p : α → Bool) (l : List α)
    (h : l.find? p = none) : l.filter p = [] := by
  rw [List.find?_eq_none] at h
  rw [List.filter_eq_nil_iff]
  exact fun a ha => by simp [h a ha]

lemma filter_mapFirst_single {α} (p : α → Bool) (f : α → α) (l : List α) (e : α)
    (hfind : l.find? p = some e) (hle : (l.filter p).length ≤ 1)
    (hf : p (f e) = true) :
    (mapFirst p f l).filter p = [f e] := by
  induction l with
  | nil => simp at hfind
  | cons a as ih =>
    rw [List.find?_cons] at hfind
    by_cases hpa : p a = true
    · rw [hpa] at hfind
      simp only [Option.some.injEq] at hfind
      subst hfind
      rw [List.filter_cons, if_pos hpa] at hle
      simp only [List.length_cons] at hle
      have hnil : as.filter p = [] := List.length_eq_zero.mp (by omega)
      rw [mapFirst, if_pos hpa, List.filter_cons, if_pos hf, hnil]
    · rw [Bool.not_eq_true] at hpa
      rw [hpa] at hfind
      rw [mapFirst, if_neg (by simp [hpa]), List.filter_cons, if_neg (by simp [hpa])]
      rw [List.filter_cons, if_neg (by simp [hpa])] at hle
      exact ih hfind hle

lemma filter_removeFirst_nil {α} (p : α → Bool) (l : List α)
    (hle : (l.filter p).length ≤ 1) :
    (removeFirst p l).filter p = [] := by
  induction l with
  | nil => rfl
  | cons a as ih =>
    by_cases hpa : p a = true
    · rw [removeFirst, if_pos hpa]
      rw [List.filter_cons, if_pos hpa] at hle
      simp only [List.length_cons] at hle
      exact List.length_eq_zero.mp (by omega)
    · rw [removeFirst, if_neg hpa, List.filter_cons, if_neg hpa]
      rw [List.filter_cons, if_neg hpa] at hle
      exact ih hle

/-- `delete_ticket_event` leaves no event referencing the ticket (given the
one-event-per-ticket engine discipline). -/
lemma eventsFor_delete (db : DB) (tid : ℤ)
    (hle : (eventsFor db tid).length ≤ 1) :
    eventsFor (delete_ticket_event db tid) tid = [] := by
  unfold delete_ticket_event
  match hfind : get_event_by_ticket db.events tid with
  | none =>
    unfold get_event_by_ticket at hfind
    exact filter_eq_nil_of_find?_eq_none _ _ hfind
  | some e =>
    show (removeFirst (fun e => e.ticket_id == some tid) db.events).filter _ = []
    exact filter_removeFirst_nil _ _ hle

lemma find?_pred {α} {p : α → Bool} {l : List α} {a : α}
    (h : l.find? p = some a) : p a = true :=
  List.find?_some h

/-- `ensure_ticket_usage_event` leaves exactly one event for the ticket, with
change `-abs(quantity)` (given non-zero quantity and the engine discipline). -/
lemma eventsFor_ensure (db : DB) (tid hid : ℤ) (q : ℤ) (note : Option String)
    (sp ac : PyV) (hq : q ≠ 0) (hle : (eventsFor db tid).length ≤ 1) :
    ∃ e, (ensure_ticket_usage_event db tid hid q note sp ac).2 = .ok e ∧
      eventsFor (ensure_ticket_usage_event db tid hid q note sp ac).1 tid = [e] ∧
      e.change = -((q.natAbs : ℤ)) := by
  unfold ensure_ticket_usage_event
  match hfind : get_event_by_ticket db.events tid with
  | some existing =>
    refine ⟨_, rfl, ?_, rfl⟩
    unfold eventsFor
    have hex := find?_pred hfind
    exact filter_mapFirst_single _ _ _ _ hfind hle (by simpa using hex)
  | none =>
    dsimp only
    unfold record_inventory_event
    dsimp only
    rw [if_neg (show ¬(-((q.natAbs : ℤ)) = 0) by simpa using hq)]
    refine ⟨_, rfl, ?_, rfl⟩
    unfold eventsFor
    simp only [List.filter_append]
    rw [filter_eq_nil_of_find?_eq_none _ _ hfind]
    simp

lemma orIntD_one_ne_zero (o : Option ℤ) : orIntD o 1 ≠ 0 := by
  unfold orIntD
  match o with
  | none => simp
  | some n =>
    by_cases hn : n = 0
    · simp [hn]
    · simp [hn]

/-- `ensure_ticket_usage_event` succeeds whenever the quantity is non-zero. -/
lemma ensure_ok (db : DB) (tid hid q : ℤ) (note : Option String) (sp ac : PyV)
    (hq : q ≠ 0) :
    ∃ e, (ensure_ticket_usage_event db tid hid q note sp ac).2 = .ok e := by
  unfold ensure_ticket_usage_event
  match hfind : get_event_by_ticket db.events tid with
  | some existing => exact ⟨_, rfl⟩
  | none =>
    dsimp only
    unfold record_inventory_event
    dsimp only
    rw [if_neg (show ¬(-((q.natAbs : ℤ)) = 0) by simpa using hq)]
    exact ⟨_, rfl⟩

/-- `ensure_ticket_usage_event` only touches the events table. -/
lemma ensure_frame (db : DB) (tid hid q : ℤ) (note : Option String) (sp ac : PyV) :
    (ensure_ticket_usage_event db tid hid q note sp ac).1.tickets = db.tickets ∧
      (ensure_ticket_usage_event db tid hid q note sp ac).1.next_ticket_id =
        db.next_ticket_id := by
  unfold ensure_ticket_usage_event
  match hfind : get_event_by_ticket db.events tid with
  | some existing => exact ⟨rfl, rfl⟩
  | none =>
    dsimp only
    unfold record_inventory_event
    dsimp only
    split
    · exact ⟨rfl, rfl⟩
    · exact ⟨rfl, rfl⟩

/-- The inventory sync helper never raises. -/
lemma sync_ticket_inventory_ok (db : DB) (t : Ticket) :
    (sync_ticket_inventory db t).2 = .ok () := by
  unfold sync_ticket_inventory
  split
  · dsimp only
    rcases ensure_ok db t.id (t.hardware_id.getD 0) (orIntD t.hardware_quantity 1)
      t.note (pyOfOpt (sync_sale_total t)) (pyOfOpt (sync_cost_total db t))
      (orIntD_one_ne_zero _) with ⟨e, he⟩
    rw [he]
    rfl
  · rfl

/-- The inventory sync helper does not touch the ticket table. -/
lemma sync_ticket_inventory_tickets (db : DB) (t : Ticket) :
    (sync_ticket_inventory db t).1.tickets = db.tickets := by
  unfold sync_ticket_inventory
  split
  · dsimp only
    exact (ensure_frame db t.id (t.hardware_id.getD 0) (orIntD t.hardware_quantity 1)
      t.note (pyOfOpt (sync_sale_total t)) (pyOfOpt (sync_cost_total db t))).1
  · rfl

/-! ## Frame lemmas for the engine stages -/

lemma apply_client_link_fields (tbl : ClientTable) (t : Ticket) (p : Payload)
    (t2 : Ticket) (h : apply_client_link tbl t p = .ok t2) :
    t2 = { t with client := t2.client, client_key := t2.client_key } := by
  unfold apply_client_link at h
  obtain ⟨pck, pcl, psi, pei, pno, pse, pin, pit, pca, pet, phid, phbc, phde,
    phsp, phqu, pfra, pfrq⟩ := p
  dsimp only at h
  rcases pck with _ | (_ | k)
  all_goals try dsimp only at h
  all_goals repeat' split at h
  all_goals first
    | (subst h; rfl)
    | exact Except.noConfusion h
    | (simp only [pure, Except.pure, Except.ok.injEq] at h; subst h; rfl)

lemma apply_time_math_fields (t : Ticket) (p : Payload) (tz : ℤ) (t2 : Ticket)
    (h : apply_time_math t p tz = .ok t2) :
    t2 = { t with elapsed_minutes := t2.elapsed_minutes, minutes := t2.minutes,
                  rounded_minutes := t2.rounded_minutes,
                  rounded_hours := t2.rounded_hours } := by
  unfold apply_time_math at h
  obtain ⟨pck, pcl, psi, pei, pno, pse, pin, pit, pca, pet, phid, phbc, phde,
    phsp, phqu, pfra, pfrq⟩ := p
  obtain ⟨tid, tcl, tck, tsi, tei, tem, trm, trh, tno, tco, tse, tin, tca, tmi,
    tet, thid, thde, thsp, thbc, thqu, tfra, tfrq, tit, tcv⟩ := t
  dsimp only at h
  rcases psi with _ | (_ | s)
  all_goals rcases pei with _ | (_ | e)
  all_goals try rcases tei with _ | te
  all_goals try dsimp only at h
  all_goals repeat' split at h
  all_goals first
    | (subst h; rfl)
    | exact Except.noConfusion h
    | (simp only [Except.ok.injEq] at h; subst h; rfl)

lemma apply_flat_rate_fields_frame (t : Ticket) (p : Payload) (t2 : Ticket)
    (h : apply_flat_rate_fields t p = .ok t2) :
    t2 = { t with flat_rate_amount := t2.flat_rate_amount,
                  flat_rate_quantity := t2.flat_rate_quantity } := by
  unfold apply_flat_rate_fields at h
  all_goals try dsimp only at h
  all_goals repeat' split at h
  all_goals first
    | (subst h; rfl)
    | exact Except.noConfusion h
    | (simp only [pure, Except.pure, Except.ok.injEq] at h; subst h; rfl)

lemma apply_hardware_link_frame (db : DB) (t : Ticket) (p : Payload) (t2 : Ticket)
    (h : apply_hardware_link db t p = .ok t2) :
    t2 = { t with hardware_id := t2.hardware_id,
                  hardware_description := t2.hardware_description,
                  hardware_sales_price := t2.hardware_sales_price,
                  hardware_barcode := t2.hardware_barcode,
                  hardware_quantity := t2.hardware_quantity } := by
  unfold apply_hardware_link at h
  all_goals try dsimp only at h
  all_goals repeat' split at h
  all_goals first
    | (subst h; rfl)
    | exact Except.noConfusion h
    | (simp only [pure, Except.pure, Except.ok.injEq] at h; subst h; rfl)
    | (simp only [pure, Except.pure, Except.ok.injEq] at h; subst h; split <;> rfl)

lemma ensure_calculated_fields_frame (t : Ticket) (b : Bool) (tbl : ClientTable) :
    ∃ cv iv, (ensure_calculated_fields t b tbl).1 =
      { t with calculated_value := cv, invoiced_total := iv } := by
  unfold ensure_calculated_fields
  dsimp only
  repeat' split
  all_goals exact ⟨_, _, rfl⟩

lemma calculate_amount_frame (t : Ticket) (tbl : ClientTable) (a b : Option String) :
    calculate_ticket_amount { t with calculated_value := a, invoiced_total := b } tbl =
      calculate_ticket_amount t tbl := rfl

lemma ensure_calc_value (t : Ticket) (b : Bool) (tbl : ClientTable) :
    (ensure_calculated_fields t b tbl).1.calculated_value =
      format_decimal (calculate_ticket_amount t tbl) := by
  unfold ensure_calculated_fields
  dsimp only
  repeat' split
  all_goals first
    | rfl
    | simp_all [ne_eq, not_not]

lemma ensure_invoiced_nonblank (t : Ticket) (b : Bool) (tbl : ClientTable)
    (ht : strTruthyOpt t.invoiced_total = true) :
    (ensure_calculated_fields t b tbl).1.invoiced_total = t.invoiced_total := by
  unfold ensure_calculated_fields
  dsimp only
  repeat' split
  all_goals first
    | rfl
    | simp_all [strTruthyOpt]

lemma ensure_invoiced_noinit (t : Ticket) (tbl : ClientTable) :
    (ensure_calculated_fields t false tbl).1.invoiced_total = t.invoiced_total := by
  unfold ensure_calculated_fields
  dsimp only
  repeat' split
  all_goals first
    | rfl
    | simp_all

lemma ensure_invoiced_seed (t : Ticket) (tbl : ClientTable)
    (ht : strTruthyOpt t.invoiced_total = false) :
    (ensure_calculated_fields t true tbl).1.invoiced_total =
      (match format_decimal (calculate_ticket_amount t tbl) with
       | some v => some v
       | none => t.invoiced_total) := by
  unfold ensure_calculated_fields
  dsimp only
  match hv : format_decimal (calculate_ticket_amount t tbl) with
  | none =>
    repeat' split
    all_goals simp_all
  | some v =>
    repeat' split
    all_goals simp_all

/-! ## Reachability invariants of the engine -/

/-- Invariant maintained by `create_entry`/`update_ticket` on every stored
ticket: non-`hardware` tickets carry no hardware snapshot, `hardware` tickets
carry a positive quantity, and a resolved link points at a real
(positive-id) catalog row. -/
def TicketWF (t : Ticket) : Prop :=
  (t.entry_type ≠ some "hardware" →
    t.hardware_id = none ∧ t.hardware_quantity = none ∧
    t.hardware_sales_price = none ∧ t.hardware_description = none ∧
    t.hardware_barcode = none) ∧
  (t.entry_type = some "hardware" → ∃ n, t.hardware_quantity = some n ∧ 1 ≤ n) ∧
  (∀ hid, t.hardware_id = some hid → 1 ≤ hid)

/-- Store-level invariant: ticket rows are well formed, catalog ids are
positive (SQLite row ids start at 1), at most one ledger event references any
ticket, and the id generator is fresh. -/
def DBWF (db : DB) : Prop :=
  (∀ t ∈ db.tickets, TicketWF t) ∧
  (∀ hw ∈ db.hardware, 1 ≤ hw.id) ∧
  (∀ tid : ℤ, (eventsFor db tid).length ≤ 1) ∧
  (∀ e ∈ db.events, ∀ x, e.ticket_id = some x → x < db.next_ticket_id) ∧
  (∀ t ∈ db.tickets, t.id < db.next_ticket_id)

lemma firstAliasHit_mem (db : DB) (cs : List String) (hw : Hardware)
    (h : firstAliasHit db cs = some hw) : hw ∈ db.hardware := by
  induction cs with
  | nil => simp [firstAliasHit] at h
  | cons c rest ih =>
    rw [firstAliasHit] at h
    match hfind : find_hw_by_barcode db c with
    | some hw2 =>
      rw [hfind] at h
      simp only [Option.some.injEq] at h
      subst h
      exact List.mem_of_find?_eq_some hfind
    | none =>
      rw [hfind] at h
      exact ih h

lemma resolve_hardware_mem (db : DB) (p : Payload) (fid : Option ℤ) (hw : Hardware)
    (h : resolve_hardware db p fid = some hw) : hw ∈ db.hardware := by
  unfold resolve_hardware at h
  dsimp only at h
  match hhit : firstAliasHit db (barcode_aliases
      (match p.hardware_barcode with | some v => v | none => none)) with
  | some hw2 =>
    rw [hhit] at h
    simp only [Option.some.injEq] at h
    subst h
    exact firstAliasHit_mem _ _ _ hhit
  | none =>
    rw [hhit] at h
    by_cases hc : intTruthy (match p.hardware_id with | some v => v | none => fid) = true
    · rw [if_pos hc] at h
      exact List.mem_of_find?_eq_some h
    · rw [if_neg hc] at h
      simp at h

/-- Effect of `_apply_hardware_link` on the invariant-relevant fields, when
the effective entry type agrees with the ticket's (true at both call sites:
create sets `entry_type` from the payload first, update assigns it in the
`setattr` loop first). -/
lemma apply_hardware_link_spec (db : DB) (t : Ticket) (p : Payload) (t2 : Ticket)
    (hdb : ∀ hw ∈ db.hardware, 1 ≤ hw.id)
    (heff : (match p.entry_type with | some v => v | none => t.entry_type) = t.entry_type)
    (h : apply_hardware_link db t p = .ok t2) :
    (t.entry_type ≠ some "hardware" →
      t2.hardware_id = none ∧ t2.hardware_quantity = none ∧
      t2.hardware_sales_price = none ∧ t2.hardware_description = none ∧
      t2.hardware_barcode = none) ∧
    ((∃ n, t2.hardware_quantity = some n ∧ 1 ≤ n) ∨ t.entry_type ≠ some "hardware") ∧
    (∀ hid, t2.hardware_id = some hid → 1 ≤ hid) := by
  by_cases hcase : t.entry_type = some "hardware"
  · unfold apply_hardware_link at h
    dsimp only at h
    rw [heff] at h
    rw [if_neg (by simp [hcase])] at h
    revert h
    cases hres : resolve_hardware db p t.hardware_id with
    | some hwv =>
      have hmem := resolve_hardware_mem _ _ _ _ hres
      intro h
      dsimp only at h
      rcases hquv : p.hardware_quantity with _ | (_ | (nq | _))
      all_goals rw [hquv] at h
      all_goals dsimp only at h
      all_goals repeat' split at h
      all_goals
        first
        | exact Except.noConfusion h
        | (simp only [pure, Except.pure, Except.ok.injEq] at h
           subst h
           refine ⟨fun hct => absurd hcase hct, Or.inl ⟨_, rfl, by omega⟩, ?_⟩
           intro hid hh
           simp only [Option.some.injEq] at hh
           subst hh
           exact hdb _ hmem)
    | none =>
      intro h
      dsimp only at h
      rcases hquv : p.hardware_quantity with _ | (_ | (nq | _))
      all_goals rw [hquv] at h
      all_goals dsimp only at h
      all_goals repeat' split at h
      all_goals
        first
        | exact Except.noConfusion h
        | (simp only [pure, Except.pure, Except.ok.injEq] at h
           subst h
           exact ⟨fun hct => absurd hcase hct, Or.inl ⟨_, rfl, by omega⟩,
             fun hid hh => absurd hh (by simp)⟩)
  · unfold apply_hardware_link at h
    dsimp only at h
    rw [heff] at h
    rw [if_pos hcase] at h
    simp only [pure, Except.pure, Except.ok.injEq] at h
    subst h
    exact ⟨fun _ => ⟨rfl, rfl, rfl, rfl, rfl⟩, Or.inr hcase,
      fun hid hh => absurd hh (by simp)⟩

/-! ## Structure of successful engine runs -/

/-- Anatomy of a successful `create_entry`: the returned ticket is the
calculated-fields refresh of the staged ticket, it carries the fresh id, it
satisfies the row invariant, the final store is the inventory sync of the
insert, and its pre-refresh `invoiced_total` is the normalized payload
value. -/
lemma create_entry_ok_spec (ctx : Ctx) (db : DB) (p : Payload) (db2 : DB)
    (t : Ticket) (h : create_entry ctx db p = (db2, .ok t)) :
    ∃ t5, t = (ensure_calculated_fields t5 true ctx.table).1 ∧
      t.id = db.next_ticket_id ∧
      ((∀ hw ∈ db.hardware, 1 ≤ hw.id) → TicketWF t) ∧
      db2 = (sync_ticket_inventory
        { db with tickets := db.tickets ++ [t],
                  next_ticket_id := db.next_ticket_id + 1 } t).1 ∧
      t5.invoiced_total =
        normalize_currency_input
          (match p.invoiced_total with | some v => v | none => .vNone) := by
  unfold create_entry at h
  dsimp only at h
  split at h
  · exact absurd (congrArg Prod.snd h) (by simp)
  · split at h
    · exact absurd (congrArg Prod.snd h) (by simp)
    · rename_i start_val hsv
      split at h
      · rename_i e heq0
        exact absurd (congrArg Prod.snd h) (by simp)
      · rename_i t1 heq1
        split at h
        · exact absurd (congrArg Prod.snd h) (by simp)
        · rename_i t2m heq2
          split at h
          · exact absurd (congrArg Prod.snd h) (by simp)
          · rename_i t3m heq3
            split at h
            · exact absurd (congrArg Prod.snd h) (by simp)
            · rename_i t4m heq4
              split at h
              · rename_i u hsync
                rw [Prod.mk.injEq] at h
                obtain ⟨hdb2, ht⟩ := h
                rw [Except.ok.injEq] at ht
                subst ht
                subst hdb2
                -- stage frames
                have e1 := apply_client_link_fields _ _ _ _ heq1
                have e2 := apply_time_math_fields _ _ _ _ heq2
                have e3 := apply_hardware_link_frame _ _ _ _ heq3
                have e4 := apply_flat_rate_fields_frame _ _ _ heq4
                obtain ⟨cv, iv, ef⟩ :=
                  ensure_calculated_fields_frame t4m true ctx.table
                refine ⟨t4m, rfl, ?_, ?_, rfl, ?_⟩
                · rw [ef, e4, e3, e2, e1]
                · intro hdb
                  have het : t2m.entry_type =
                      (match p.entry_type with
                       | some v => v
                       | none => some "time") := by
                    rw [e2, e1]
                  have heff : (match p.entry_type with
                      | some v => v
                      | none => t2m.entry_type) = t2m.entry_type := by
                    rw [het]
                    rcases p.entry_type with _ | v
                    · rfl
                    · rfl
                  have spec := apply_hardware_link_spec db t2m p t3m hdb heff heq3
                  have het2 : (ensure_calculated_fields t4m true ctx.table).1.entry_type
                      = t3m.entry_type := by
                    rw [ef, e4]
                  have hid2 : (ensure_calculated_fields t4m true ctx.table).1.hardware_id
                      = t3m.hardware_id := by
                    rw [ef, e4]
                  have hqu2 : (ensure_calculated_fields t4m true ctx.table).1.hardware_quantity
                      = t3m.hardware_quantity := by
                    rw [ef, e4]
                  have hsp2 : (ensure_calculated_fields t4m true ctx.table).1.hardware_sales_price
                      = t3m.hardware_sales_price := by
                    rw [ef, e4]
                  have hde2 : (ensure_calculated_fields t4m true ctx.table).1.hardware_description
                      = t3m.hardware_description := by
                    rw [ef, e4]
                  have hbc2 : (ensure_calculated_fields t4m true ctx.table).1.hardware_barcode
                      = t3m.hardware_barcode := by
                    rw [ef, e4]
                  have hety : t3m.entry_type = t2m.entry_type := by
                    rw [e3]
                  refine ⟨?_, ?_, ?_⟩
                  · intro hne
                    rw [het2, hety] at hne
                    have hc := spec.1 hne
                    rw [hid2, hqu2, hsp2, hde2, hbc2]
                    exact ⟨hc.1, hc.2.1, hc.2.2.1, hc.2.2.2.1, hc.2.2.2.2⟩
                  · intro hhw
                    rw [het2, hety] at hhw
                    rcases spec.2.1 with hq | hne
                    · rw [hqu2]
                      exact hq
                    · exact absurd hhw hne
                  · intro hid hh
                    rw [hid2] at hh
                    exact spec.2.2 hid hh
                · rw [e4, e3, e2, e1]
              · rename_i e hsync
                rw [sync_ticket_inventory_ok] at hsync
                exact Except.noConfusion hsync

lemma isSome_false_eq_none {α : Type} (o : Option α) (h : o.isSome = false) :
    o = none := by
  cases o with
  | none => rfl
  | some v => simp at h

/-- When the field-sync trigger does not fire, none of the type-specific
payload keys are present. -/
lemma hwTrigger_false (p : Payload) (h : hwTrigger p = false) :
    p.entry_type = none ∧ p.hardware_id = none ∧ p.hardware_barcode = none ∧
    p.hardware_quantity = none ∧ p.hardware_sales_price = none ∧
    p.hardware_description = none ∧ p.flat_rate_amount = none ∧
    p.flat_rate_quantity = none := by
  simp only [hwTrigger, Bool.or_eq_false_iff] at h
  obtain ⟨⟨⟨⟨⟨⟨⟨h1, h2⟩, h3⟩, h4⟩, h5⟩, h6⟩, h7⟩, h8⟩ := h
  exact ⟨isSome_false_eq_none _ h1, isSome_false_eq_none _ h2,
    isSome_false_eq_none _ h3, isSome_false_eq_none _ h4,
    isSome_false_eq_none _ h5, isSome_false_eq_none _ h6,
    isSome_false_eq_none _ h7, isSome_false_eq_none _ h8⟩

/-- Anatomy of a successful `update_ticket`, analogous to
`create_entry_ok_spec`. -/
lemma update_ticket_ok_spec (ctx : Ctx) (db : DB) (tid : ℤ) (p : Payload)
    (db2 : DB) (t : Ticket) (h : update_ticket ctx db tid p = (db2, .ok t)) :
    ∃ t0 t5, db.tickets.find? (fun x => x.id == tid) = some t0 ∧
      t = (ensure_calculated_fields t5 (!(strTruthyOpt t5.invoiced_total)) ctx.table).1 ∧
      t.id = t0.id ∧
      t5.invoiced_total =
        (match p.invoiced_total with
         | some v => normalize_currency_input v
         | none => t0.invoiced_total) ∧
      (TicketWF t0 → (∀ hw ∈ db.hardware, 1 ≤ hw.id) → TicketWF t) ∧
      (((t.entry_type = some "hardware" && intTruthy t.hardware_id) = true →
        db2 = (sync_ticket_inventory
          { db with tickets := mapFirst (fun x => x.id == tid) (fun _ => t) db.tickets } t).1) ∧
       ((t.entry_type = some "hardware" && intTruthy t.hardware_id) = false →
        db2 = delete_ticket_event
          { db with tickets := mapFirst (fun x => x.id == tid) (fun _ => t) db.tickets } t.id)) := by
  unfold update_ticket at h
  dsimp only at h
  split at h
  · exact absurd (congrArg Prod.snd h) (by simp)
  · rename_i t0 hfind
    split at h
    · exact absurd (congrArg Prod.snd h) (by simp)
    · rename_i t1 heq1
      -- client-link step frame
      have e1 : t1 = { t0 with client := t1.client, client_key := t1.client_key } := by
        split at heq1
        · exact apply_client_link_fields _ _ _ _ heq1
        · simp only [Except.ok.injEq] at heq1
          subst heq1
          rfl
      split at h
      · exact absurd (congrArg Prod.snd h) (by simp)
      · rename_i t3 heq2
        -- time-math step frame (t2a is the setattr result)
        have e2 : t3 = { assignPayload t1 p
            (is_contract_client
              (match p.client_key with
               | some v => v
               | none => some t1.client_key) ctx.table) with
            elapsed_minutes := t3.elapsed_minutes, minutes := t3.minutes,
            rounded_minutes := t3.rounded_minutes,
            rounded_hours := t3.rounded_hours } := by
          split at heq2
          · exact apply_time_math_fields _ _ _ _ heq2
          · simp only [Except.ok.injEq] at heq2
            subst heq2
            rfl
        split at h
        · exact absurd (congrArg Prod.snd h) (by simp)
        · rename_i t5 heq3
          -- invariant and invoiced/entry facts for t5
          set t2a := assignPayload t1 p
            (is_contract_client
              (match p.client_key with
               | some v => v
               | none => some t1.client_key) ctx.table) with ht2a
          have hinv3 : t3.invoiced_total =
              (match p.invoiced_total with
               | some v => normalize_currency_input v
               | none => t0.invoiced_total) := by
            rw [e2]
            show t2a.invoiced_total = _
            rw [ht2a]
            show (match p.invoiced_total with
                  | some v => normalize_currency_input v
                  | none => t1.invoiced_total) = _
            rw [e1]
          have hid3 : t3.id = t0.id := by
            rw [e2]
            show t2a.id = t0.id
            rw [ht2a]
            show t1.id = t0.id
            rw [e1]
          have het3 : t3.entry_type =
              (match p.entry_type with
               | some v => v
               | none => t1.entry_type) := by
            rw [e2]
            show t2a.entry_type = _
            rw [ht2a]
            rfl
          -- step-3 analysis
          have hstep3 : (t5.invoiced_total = t3.invoiced_total ∧ t5.id = t3.id) ∧
              (TicketWF t0 → (∀ hw ∈ db.hardware, 1 ≤ hw.id) → TicketWF t5) := by
            split at heq3
            · rename_i htr
              split at heq3
              · exact absurd heq3 (by simp)
              · rename_i t4 heq3a
                have e3 := apply_hardware_link_frame _ _ _ _ heq3a
                have e4 := apply_flat_rate_fields_frame _ _ _ heq3
                constructor
                · constructor
                  · rw [e4, e3]
                  · rw [e4, e3]
                · intro _ hdb
                  have heff : (match p.entry_type with
                      | some v => v
                      | none => t3.entry_type) = t3.entry_type := by
                    rw [het3]
                    rcases p.entry_type with _ | v
                    · rfl
                    · rfl
                  have spec := apply_hardware_link_spec db t3 p t4 hdb heff heq3a
                  have hety : t4.entry_type = t3.entry_type := by rw [e3]
                  have he5 : t5.entry_type = t4.entry_type := by rw [e4]
                  have hq5 : t5.hardware_quantity = t4.hardware_quantity := by rw [e4]
                  have hi5 : t5.hardware_id = t4.hardware_id := by rw [e4]
                  have hs5 : t5.hardware_sales_price = t4.hardware_sales_price := by rw [e4]
                  have hd5 : t5.hardware_description = t4.hardware_description := by rw [e4]
                  have hb5 : t5.hardware_barcode = t4.hardware_barcode := by rw [e4]
                  refine ⟨?_, ?_, ?_⟩
                  · intro hne
                    rw [he5, hety] at hne
                    have hc := spec.1 hne
                    rw [hi5, hq5, hs5, hd5, hb5]
                    exact ⟨hc.1, hc.2.1, hc.2.2.1, hc.2.2.2.1, hc.2.2.2.2⟩
                  · intro hhw
                    rw [he5, hety] at hhw
                    rcases spec.2.1 with hq | hne
                    · rw [hq5]
                      exact hq
                    · exact absurd hhw hne
                  · intro hid hh
                    rw [hi5] at hh
                    exact spec.2.2 hid hh
            · rename_i htr
              simp only [Except.ok.injEq] at heq3
              subst heq3
              rw [Bool.not_eq_true] at htr
              obtain ⟨hp1, hp2, hp3, hp4, hp5, hp6, hp7, hp8⟩ := hwTrigger_false p htr
              -- without the trigger, the type and hardware fields are t0's
              have het : t3.entry_type = t0.entry_type := by
                rw [het3, hp1, e1]
              have hfid : t3.hardware_id = t0.hardware_id := by
                rw [e2]
                show t2a.hardware_id = t0.hardware_id
                rw [ht2a]
                show (match p.hardware_id with
                      | some v => v
                      | none => t1.hardware_id) = t0.hardware_id
                rw [hp2, e1]
              have hfqu : t3.hardware_quantity = t0.hardware_quantity := by
                rw [e2]
                show t2a.hardware_quantity = t0.hardware_quantity
                rw [ht2a]
                show t1.hardware_quantity = t0.hardware_quantity
                rw [e1]
              have hfsp : t3.hardware_sales_price = t0.hardware_sales_price := by
                rw [e2]
                show t2a.hardware_sales_price = t0.hardware_sales_price
                rw [ht2a]
                show (match p.hardware_sales_price with
                      | some v => v
                      | none => t1.hardware_sales_price) = t0.hardware_sales_price
                rw [hp5, e1]
              have hfde : t3.hardware_description = t0.hardware_description := by
                rw [e2]
                show t2a.hardware_description = t0.hardware_description
                rw [ht2a]
                show (match p.hardware_description with
                      | some v => v
                      | none => t1.hardware_description) = t0.hardware_description
                rw [hp6, e1]
              have hfbc : t3.hardware_barcode = t0.hardware_barcode := by
                rw [e2]
                show t2a.hardware_barcode = t0.hardware_barcode
                rw [ht2a]
                show (match p.hardware_barcode with
                      | some (some s) => if s = "" then none else some s
                      | some none => none
                      | none => t1.hardware_barcode) = t0.hardware_barcode
                rw [hp3, e1]
              refine ⟨⟨rfl, hid3 ▸ rfl⟩, ?_⟩
              intro hwf0 _
              refine ⟨?_, ?_, ?_⟩
              · intro hne
                rw [het] at hne
                have hc := hwf0.1 hne
                rw [hfid, hfqu, hfsp, hfde, hfbc]
                exact ⟨hc.1, hc.2.1, hc.2.2.1, hc.2.2.2.1, hc.2.2.2.2⟩
              · intro hhw
                rw [het] at hhw
                rw [hfqu]
                exact hwf0.2.1 hhw
              · intro hid hh
                rw [hfid] at hh
                exact hwf0.2.2 hid hh
          -- final stage: commit + sync/delete
          split at h
          · rename_i hcond
            split at h
            · rename_i u hsync
              rw [Prod.mk.injEq] at h
              obtain ⟨hdb2, ht⟩ := h
              rw [Except.ok.injEq] at ht
              subst ht
              subst hdb2
              refine ⟨t0, t5, hfind, rfl, ?_, ?_, ?_, ?_, ?_⟩
              · obtain ⟨cv, iv, ef⟩ := ensure_calculated_fields_frame t5
                  (!(strTruthyOpt t5.invoiced_total)) ctx.table
                rw [ef]
                show t5.id = t0.id
                rw [hstep3.1.2, hid3]
              · rw [hstep3.1.1, hinv3]
              · intro hwf0 hdb
                have hwf5 := hstep3.2 hwf0 hdb
                obtain ⟨cv, iv, ef⟩ := ensure_calculated_fields_frame t5
                  (!(strTruthyOpt t5.invoiced_total)) ctx.table
                refine ⟨?_, ?_, ?_⟩
                · intro hne
                  rw [ef] at hne ⊢
                  exact hwf5.1 hne
                · intro hhw
                  rw [ef] at hhw ⊢
                  exact hwf5.2.1 hhw
                · intro hid hh
                  rw [ef] at hh
                  exact hwf5.2.2 hid hh
              · intro _
                rfl
              · intro hfalse
                rw [hcond] at hfalse
                exact Bool.noConfusion hfalse
            · rename_i e hsync
              rw [sync_ticket_inventory_ok] at hsync
              exact Except.noConfusion hsync
          · rename_i hcond
            rw [Bool.not_eq_true] at hcond
            rw [Prod.mk.injEq] at h
            obtain ⟨hdb2, ht⟩ := h
            rw [Except.ok.injEq] at ht
            subst ht
            subst hdb2
            refine ⟨t0, t5, hfind, rfl, ?_, ?_, ?_, ?_, ?_⟩
            · obtain ⟨cv, iv, ef⟩ := ensure_calculated_fields_frame t5
                (!(strTruthyOpt t5.invoiced_total)) ctx.table
              rw [ef]
              show t5.id = t0.id
              rw [hstep3.1.2, hid3]
            · rw [hstep3.1.1, hinv3]
            · intro hwf0 hdb
              have hwf5 := hstep3.2 hwf0 hdb
              obtain ⟨cv, iv, ef⟩ := ensure_calculated_fields_frame t5
                (!(strTruthyOpt t5.invoiced_total)) ctx.table
              refine ⟨?_, ?_, ?_⟩
              · intro hne
                rw [ef] at hne ⊢
                exact hwf5.1 hne
              · intro hhw
                rw [ef] at hhw ⊢
                exact hwf5.2.1 hhw
              · intro hid hh
                rw [ef] at hh
                exact hwf5.2.2 hid hh
            · intro htrue
              rw [hcond] at htrue
              exact Bool.noConfusion htrue
            · intro _
              rfl

deriving instance DecidableEq for Except

/-! ## Claim C1 -/

/-- The spec's hardware-like entry types. -/
def hardwareLikeList : List String := ["hardware", "software", "component", "accessory"]

lemma orIntD_some_pos (n : ℤ) (h : 1 ≤ n) : orIntD (some n) 1 = n := by
  simp only [orIntD]
  rw [if_neg (by omega)]

/-- `C1`: after a successful create or update from a well-formed store, a
ticket with a hardware-like entry type and a resolved hardware link has
exactly one inventory event, whose change is minus its quantity; and an
update that moves a ticket's entry type away from the hardware-like set
leaves no event referencing it.  (Only `entry_type = "hardware"` can actually
hold a resolved link: the engine clears the link on every other type, which
the store invariant records.) -/
theorem hardware_ticket_inventory_sync (ctx : Ctx) (db : DB) (op : Op)
    (db2 : DB) (t : Ticket) (hwf : DBWF db)
    (hrun : run_op ctx db op = (db2, Except.ok t)) :
    ((∃ s, t.entry_type = some s ∧ s ∈ hardwareLikeList) →
      ∀ hid, t.hardware_id = some hid →
        ∃ n, t.hardware_quantity = some n ∧ 1 ≤ n ∧
          ∃ e, eventsFor db2 t.id = [e] ∧ e.change = -n) ∧
    (∀ tid p t0, op = Op.update tid p →
      db.tickets.find? (fun x => x.id == tid) = some t0 →
      (∃ s, t0.entry_type = some s ∧ s ∈ hardwareLikeList) →
      (∀ s, t.entry_type = some s → s ∉ hardwareLikeList) →
      eventsFor db2 t.id = []) := by
  obtain ⟨hwfT, hwfH, hwfE, hwfFresh, hwfTid⟩ := hwf
  constructor
  · intro hex hid0 hhid
    obtain ⟨s, hets, hsmem⟩ := hex
    -- establish the row invariant on the result
    have hwft : TicketWF t := by
      cases op with
      | create p =>
        obtain ⟨t5, _, _, hWF, _, _⟩ := create_entry_ok_spec ctx db p db2 t hrun
        exact hWF hwfH
      | update tid p =>
        obtain ⟨t0, t5, hfind, _, _, _, hWF, _⟩ :=
          update_ticket_ok_spec ctx db tid p db2 t hrun
        exact hWF (hwfT t0 (List.mem_of_find?_eq_some hfind)) hwfH
    by_cases hsh : s = "hardware"
    · subst hsh
      obtain ⟨n, hqn, hn1⟩ := hwft.2.1 hets
      have hhge : 1 ≤ hid0 := hwft.2.2 hid0 hhid
      have hcond : (t.entry_type = some "hardware" && intTruthy t.hardware_id) = true := by
        rw [hets, hhid]
        simp only [intTruthy, Bool.and_eq_true, decide_eq_true_eq]
        exact ⟨by trivial, by omega⟩
      have hq : orIntD t.hardware_quantity 1 = n := by
        rw [hqn]
        exact orIntD_some_pos n hn1
      have habs : ((n.natAbs : ℤ)) = n := Int.natAbs_of_nonneg (by omega)
      refine ⟨n, hqn, hn1, ?_⟩
      cases op with
      | create p =>
        obtain ⟨t5, _, _, _, hdb2, _⟩ := create_entry_ok_spec ctx db p db2 t hrun
        rw [hdb2]
        unfold sync_ticket_inventory
        rw [if_pos hcond]
        dsimp only
        obtain ⟨e, hok, hevs, hch⟩ := eventsFor_ensure
          { db with tickets := db.tickets ++ [t],
                    next_ticket_id := db.next_ticket_id + 1 }
          t.id (t.hardware_id.getD 0) (orIntD t.hardware_quantity 1) t.note
          (pyOfOpt (sync_sale_total t))
          (pyOfOpt (sync_cost_total
            { db with tickets := db.tickets ++ [t],
                      next_ticket_id := db.next_ticket_id + 1 } t))
          (by rw [hq]; omega) (hwfE t.id)
        exact ⟨e, hevs, by rw [hch, hq, habs]⟩
      | update tid p =>
        obtain ⟨t0, t5, hfind, _, _, _, _, hsync, _⟩ :=
          update_ticket_ok_spec ctx db tid p db2 t hrun
        rw [hsync hcond]
        unfold sync_ticket_inventory
        rw [if_pos hcond]
        dsimp only
        obtain ⟨e, hok, hevs, hch⟩ := eventsFor_ensure
          { db with tickets := mapFirst (fun x => x.id == tid) (fun _ => t) db.tickets }
          t.id (t.hardware_id.getD 0) (orIntD t.hardware_quantity 1) t.note
          (pyOfOpt (sync_sale_total t))
          (pyOfOpt (sync_cost_total
            { db with tickets := mapFirst (fun x => x.id == tid) (fun _ => t) db.tickets } t))
          (by rw [hq]; omega) (hwfE t.id)
        exact ⟨e, hevs, by rw [hch, hq, habs]⟩
    · have hne : t.entry_type ≠ some "hardware" := by
        rw [hets]
        intro hcontra
        rw [Option.some.injEq] at hcontra
        exact hsh hcontra
      have := (hwft.1 hne).1
      rw [this] at hhid
      exact Option.noConfusion hhid
  · intro tid p t0 hop hfind2 hpre hpost
    subst hop
    obtain ⟨t0b, t5, hfind, _, _, _, _, _, hdel⟩ :=
      update_ticket_ok_spec ctx db tid p db2 t hrun
    have hne : t.entry_type ≠ some "hardware" := by
      intro hc
      exact (hpost "hardware" hc) (by simp [hardwareLikeList])
    have hcf : (t.entry_type = some "hardware" && intTruthy t.hardware_id) = false := by
      rw [Bool.and_eq_false_iff]
      left
      simp [hne]
    rw [hdel hcf]
    exact eventsFor_delete _ _ (hwfE t.id)

/-- Concrete fixtures for the witnesses. -/
def hwW : Hardware := { id := 1, barcode := "B1", created_at := "c" }

def dbW : DB :=
  { tickets := [], hardware := [hwW], events := [], next_ticket_id := 10,
    next_event_id := 100, now := "NOW" }

def ctxW : Ctx := { table := [("c", { name := some "C" })], tz := 0 }

def pW : Payload :=
  { client_key := some (some "c"), start_iso := some (some ""),
    entry_type := some (some "hardware"), hardware_id := some (some 1) }

def emptyTicket : Ticket :=
  { id := 0, client := "", client_key := "", start_iso := "", end_iso := none,
    elapsed_minutes := 0, rounded_minutes := 0, rounded_hours := "", note := none,
    completed := 0, sent := 0, invoice_number := none, created_at := "", minutes := 0,
    entry_type := none, hardware_id := none, hardware_description := none,
    hardware_sales_price := none, hardware_barcode := none, hardware_quantity := none,
    flat_rate_amount := none, flat_rate_quantity := none, invoiced_total := none,
    calculated_value := none }

def dbW2 : DB := (run_op ctxW dbW (Op.create pW)).1

def tW : Ticket := ((run_op ctxW dbW (Op.create pW)).2.toOption).getD emptyTicket

lemma dbW_wf : DBWF dbW := by
  refine ⟨by simp [dbW], ?_, ?_, by simp [dbW], by simp [dbW]⟩
  · intro hw hmem
    simp only [dbW, List.mem_singleton] at hmem
    subst hmem
    decide
  · intro tid
    simp [eventsFor, dbW]

/-- Witness for C1: creating a hardware ticket linked to catalog row 1 leaves
exactly one inventory event with change `-1`. -/
theorem hardware_ticket_inventory_sync_witness :
    DBWF dbW ∧ run_op ctxW dbW (Op.create pW) = (dbW2, Except.ok tW) ∧
      tW.entry_type = some "hardware" ∧ tW.hardware_id = some 1 ∧
      ∃ n, tW.hardware_quantity = some n ∧ 1 ≤ n ∧
        ∃ e, eventsFor dbW2 tW.id = [e] ∧ e.change = -n := by
  have hr : run_op ctxW dbW (Op.create pW) = (dbW2, Except.ok tW) := by
    with_unfolding_all decide
  refine ⟨dbW_wf, hr, by with_unfolding_all decide, by with_unfolding_all decide, ?_⟩
  exact (hardware_ticket_inventory_sync ctxW dbW (Op.create pW) dbW2 tW dbW_wf hr).1
    ⟨"hardware", by with_unfolding_all decide, by simp [hardwareLikeList]⟩
    1 (by with_unfolding_all decide)

/-! ## Claims C2, C3, C4 -/

def hwC2 : Hardware :=
  { id := 1, barcode := "SALE123", description := some "Bundle",
    acquisition_cost := some "45.00", created_at := "c" }

def dbC2 : DB :=
  { tickets := [], hardware := [hwC2], events := [], next_ticket_id := 10,
    next_event_id := 100, now := "NOW" }

def ctxC2 : Ctx := { table := [("client-1", { name := some "Client 1" })], tz := 0 }

def pC2 : Payload :=
  { client_key := some (some "client-1"), start_iso := some (some ""),
    entry_type := some (some "hardware"), hardware_id := some (some 1),
    hardware_quantity := some (some (QVal.qInt 2)),
    hardware_sales_price := some (some "150") }

lemma dbC2_wf : DBWF dbC2 := by
  refine ⟨by simp [dbC2], ?_, ?_, by simp [dbC2], by simp [dbC2]⟩
  · intro hw hmem
    simp only [dbC2, List.mem_singleton] at hmem
    subst hmem
    decide
  · intro tid
    simp [eventsFor, dbC2]

set_option maxRecDepth 100000 in
/-- `C2` (code bug): creating a hardware ticket with quantity 2 and unit sales
price 150 against an item whose unit acquisition cost is 45 stores
`sale_price_total = 600` and `actual_cost = 180` — the unit price times the
quantity squared — because `create_entry` passes `unit x quantity` totals into
`ensure_ticket_usage_event`, which treats its price arguments as unit values
and multiplies by `abs(change)` again.  The repository's own test
(`test_create_entry_records_sale_totals`) expects `300` and `90`, as the claim
states. -/
theorem create_entry_sale_totals_double_multiplied :
    ((create_entry ctxC2 dbC2 pC2).1.events.map
        (fun e => (e.ticket_id, e.change, e.sale_price_total, e.actual_cost))) =
      [(some 10, -2, some 600, some 180)] ∧
    (600 : ℚ) = 150 * 2 * 2 ∧ (180 : ℚ) = 45 * 2 * 2 ∧
    ¬((600 : ℚ) = 150 * 2) ∧ ¬((180 : ℚ) = 45 * 2) := by
  refine ⟨by with_unfolding_all decide, by norm_num, by norm_num, by norm_num,
    by norm_num⟩

set_option maxRecDepth 100000 in
/-- `C3` counterexample: calling `record_inventory_event` with `change = +4`
and `actual_cost = 100` stores `unit_cost = 100`, not `100 / 4 = 25`: the
`actual_cost` argument is a per-unit amount in the code (the stored
`actual_cost` column is the derived total), the claim reads it as the total. -/
theorem record_unit_cost_counterexample :
    ((record_inventory_event dbC2
        { hardware_id := 1, change := 4, counterparty_type := some "vendor",
          actual_cost := .vNum 100 }).1.events.map (fun e => e.unit_cost)) =
      [some 100] ∧
    ¬((100 : ℚ) = 100 / 4) := by
  exact ⟨by with_unfolding_all decide, by norm_num⟩

def dbC3a : DB :=
  (record_inventory_event dbC2
    { hardware_id := 1, change := 4, counterparty_name := some "Vendor A",
      counterparty_type := some "vendor", actual_cost := .vNum 25 }).1

def dbC3b : DB :=
  (record_inventory_event dbC3a
    { hardware_id := 1, change := 3, counterparty_name := some "Vendor B",
      counterparty_type := some "vendor", actual_cost := .vNum 20 }).1

set_option maxRecDepth 100000 in
/-- `C3` (amended): for a non-zero change and a parseable `actual_cost`
argument, the stored `unit_cost` equals that argument (a unit amount), the
stored `actual_cost` column equals `unit x abs(change)`, and hence the stored
`unit_cost` equals the stored `actual_cost` total divided by `abs(change)`;
with unit costs 25 over `+4` (total 100) and 20 over `+3` (total 60) on the
same item, `average_unit_cost` is `22.5`. -/
theorem record_inventory_event_unit_cost (db : DB) (a : RecordArgs) (u : ℚ)
    (hch : a.change ≠ 0) (hu : normalize_amount a.actual_cost = some u) :
    (∃ e, (record_inventory_event db a).2 = .ok e ∧
      e.unit_cost = some u ∧
      e.actual_cost = some (u * (a.change.natAbs : ℚ)) ∧
      ∀ c, e.actual_cost = some c →
        e.unit_cost = some (c / (a.change.natAbs : ℚ))) ∧
    average_unit_cost dbC3b.events 1 = some (45/2) := by
  constructor
  · unfold record_inventory_event
    rw [if_neg hch]
    dsimp only
    have htv : total_value (normalize_amount a.actual_cost) a.change =
        some (u * (a.change.natAbs : ℚ)) := by
      rw [hu]
      simp only [total_value]
      rw [if_neg hch]
    refine ⟨_, rfl, hu, htv, ?_⟩
    intro c hc
    have hc' : total_value (normalize_amount a.actual_cost) a.change = some c := hc
    rw [htv, Option.some.injEq] at hc'
    subst hc'
    have hnz : ((a.change.natAbs : ℚ)) ≠ 0 := by
      simp only [ne_eq, Nat.cast_eq_zero, Int.natAbs_eq_zero]
      exact hch
    show normalize_amount a.actual_cost =
      some (u * (a.change.natAbs : ℚ) / (a.change.natAbs : ℚ))
    rw [hu, mul_div_cancel_right₀ u hnz]
  · with_unfolding_all decide

set_option maxRecDepth 100000 in
/-- Witness for the amended C3 at change `+4`, unit cost argument 25. -/
theorem record_inventory_event_unit_cost_witness :
    ((4:ℤ) ≠ 0) ∧
    normalize_amount (PyV.vNum 25) = some 25 ∧
    ∃ e, (record_inventory_event dbC2
        { hardware_id := 1, change := 4, counterparty_name := some "Vendor A",
          counterparty_type := some "vendor", actual_cost := .vNum 25 }).2 = .ok e ∧
      e.unit_cost = some 25 ∧ e.actual_cost = some (25 * ((4:ℤ).natAbs : ℚ)) := by
  refine ⟨by decide, by with_unfolding_all decide, ?_⟩
  obtain ⟨⟨e, hok, hu, hac, _⟩, _⟩ := record_inventory_event_unit_cost dbC2
    { hardware_id := 1, change := 4, counterparty_name := some "Vendor A",
      counterparty_type := some "vendor", actual_cost := .vNum 25 } 25
    (by decide) (by with_unfolding_all decide)
  exact ⟨e, hok, hu, hac⟩

def ctxC4 : Ctx :=
  { table := [("c2", { name := some "C Two", support_rate := .vStr "100" })], tz := 0 }

def pC4 : Payload :=
  { client_key := some (some "c2"),
    start_iso := some (some "2023-01-01T00:00:00Z"),
    end_iso := some (some "2023-01-01T01:00:00Z"),
    entry_type := some (some "software") }

set_option maxRecDepth 100000 in
/-- `C4` counterexample: a ticket created with entry type `software` (in the
claim's hardware-like set) and no sales price does not get a null
`calculated_value`: the code computes it down the time path
(1 hour x support rate 100 = "100.00"). -/
theorem software_calculated_value_not_null :
    ((create_entry ctxC4 dbC2 pC4).2.map
      (fun t => (t.entry_type, t.hardware_sales_price, t.calculated_value))) =
      .ok (some "software", none, some "100.00") ∧
    (some "100.00" : Option String) ≠ none := by
  exact ⟨by with_unfolding_all decide, by decide⟩

/-- The invariant holds for the result of any successful engine run from a
well-formed store. -/
lemma run_op_wf (ctx : Ctx) (db : DB) (op : Op) (db2 : DB) (t : Ticket)
    (hwf : DBWF db) (hrun : run_op ctx db op = (db2, Except.ok t)) :
    TicketWF t := by
  obtain ⟨hwfT, hwfH, _, _, _⟩ := hwf
  cases op with
  | create p =>
    obtain ⟨t5, _, _, hWF, _, _⟩ := create_entry_ok_spec ctx db p db2 t hrun
    exact hWF hwfH
  | update tid p =>
    obtain ⟨t0, t5, hfind, _, _, _, hWF, _⟩ :=
      update_ticket_ok_spec ctx db tid p db2 t hrun
    exact hWF (hwfT t0 (List.mem_of_find?_eq_some hfind)) hwfH

/-- The result of any successful engine run carries a freshly recomputed
`calculated_value`. -/
lemma run_op_calc_value (ctx : Ctx) (db : DB) (op : Op) (db2 : DB) (t : Ticket)
    (hrun : run_op ctx db op = (db2, Except.ok t)) :
    t.calculated_value = format_decimal (calculate_ticket_amount t ctx.table) := by
  cases op with
  | create p =>
    obtain ⟨t5, hens, _, _, _, _⟩ := create_entry_ok_spec ctx db p db2 t hrun
    obtain ⟨cv, iv, ef⟩ := ensure_calculated_fields_frame t5 true ctx.table
    rw [hens, ensure_calc_value, ef, calculate_amount_frame t5 ctx.table cv iv]
  | update tid p =>
    obtain ⟨t0, t5, _, hens, _, _, _, _⟩ :=
      update_ticket_ok_spec ctx db tid p db2 t hrun
    obtain ⟨cv, iv, ef⟩ := ensure_calculated_fields_frame t5
      (!(strTruthyOpt t5.invoiced_total)) ctx.table
    rw [hens, ensure_calc_value, ef, calculate_amount_frame t5 ctx.table cv iv]

/-- `C4` (amended): after any successful create or update from a well-formed
store, a ticket whose entry type is exactly `hardware` has
`calculated_value = format(price x quantity)` when its sales price parses and
`null` when it does not; `software`/`component`/`accessory` tickets follow
the time-based path instead (see the counterexample). -/
theorem calculated_value_hardware_tickets (ctx : Ctx) (db : DB) (op : Op)
    (db2 : DB) (t : Ticket) (hwf : DBWF db)
    (hrun : run_op ctx db op = (db2, Except.ok t))
    (hhw : t.entry_type = some "hardware") :
    ∃ n, t.hardware_quantity = some n ∧ 1 ≤ n ∧
      (∀ pr, to_decimal (pyOfStrOpt t.hardware_sales_price) = some pr →
        t.calculated_value = format_decimal (some (pr * (n : ℚ)))) ∧
      (to_decimal (pyOfStrOpt t.hardware_sales_price) = none →
        t.calculated_value = none) := by
  have hwft := run_op_wf ctx db op db2 t hwf hrun
  have hcv := run_op_calc_value ctx db op db2 t hrun
  obtain ⟨n, hqn, hn1⟩ := hwft.2.1 hhw
  have hbranch : calculate_ticket_amount t ctx.table =
      (match to_decimal (pyOfStrOpt t.hardware_sales_price) with
       | none => none
       | some unit_price => some (unit_price * ((orIntD t.hardware_quantity 1 : ℤ) : ℚ))) := by
    unfold calculate_ticket_amount
    rw [hhw]
    rw [if_pos (show lowerStr (entryTypeOr (some "hardware")) = "hardware" from by rfl)]
  refine ⟨n, hqn, hn1, ?_, ?_⟩
  · intro pr hpr
    rw [hcv, hbranch, hpr, hqn]
    rw [orIntD_some_pos n hn1]
  · intro hnone
    rw [hcv, hbranch, hnone]
    rfl

def dbC2r : DB := (create_entry ctxC2 dbC2 pC2).1

def tC2 : Ticket := ((create_entry ctxC2 dbC2 pC2).2.toOption).getD emptyTicket

set_option maxRecDepth 100000 in
/-- Witness for the amended C4: the hardware ticket of the C2 fixture (price
150, quantity 2) has `calculated_value = "300.00"`. -/
theorem calculated_value_hardware_tickets_witness :
    DBWF dbC2 ∧ run_op ctxC2 dbC2 (Op.create pC2) = (dbC2r, Except.ok tC2) ∧
      tC2.entry_type = some "hardware" ∧
      to_decimal (pyOfStrOpt tC2.hardware_sales_price) = some 150 ∧
      ∃ n, tC2.hardware_quantity = some n ∧
        tC2.calculated_value = format_decimal (some (150 * (n : ℚ))) ∧
        tC2.calculated_value = some "300.00" := by
  have hr : run_op ctxC2 dbC2 (Op.create pC2) = (dbC2r, Except.ok tC2) := by
    with_unfolding_all decide
  obtain ⟨n, hq, hn1, hp, _⟩ := calculated_value_hardware_tickets ctxC2 dbC2
    (Op.create pC2) dbC2r tC2 dbC2_wf hr (by with_unfolding_all decide)
  exact ⟨dbC2_wf, hr, by with_unfolding_all decide, by with_unfolding_all decide,
    n, hq, hp 150 (by with_unfolding_all decide), by with_unfolding_all decide⟩

/-! ## Claims C8, C9, C10 -/

/-- Rows handed back by `list_tickets`: the page refreshed row by row. -/
lemma list_tickets_rows (ctx : Ctx) (db : DB) (limit offset : ℕ) :
    (list_tickets ctx db limit offset).2.2 =
      (((sortByCreatedDesc db.tickets).drop offset).take limit).map
        (fun t => (ensure_calculated_fields t true ctx.table).1) := by
  simp only [list_tickets, List.map_map]
  rfl

/-- Rows handed back by `list_active_tickets`. -/
lemma list_active_rows (ctx : Ctx) (db : DB) (ck : Option String)
    (limit offset : ℕ) :
    (list_active_tickets ctx db ck limit offset).2.2 =
      (((sortByCreatedDesc (db.tickets.filter (activeFilter ck))).drop offset).take
        limit).map (fun t => (ensure_calculated_fields t true ctx.table).1) := by
  simp only [list_active_tickets, List.map_map]
  rfl

/-- `any` over a mapped list. -/
lemma any_map_eq {α β : Type} (l : List α) (f : α → β) (p : β → Bool) :
    (l.map f).any p = l.any (fun a => p (f a)) := by
  induction l with
  | nil => rfl
  | cons a as ih => simp only [List.map_cons, List.any_cons, ih]

/-- The commit flag of `list_tickets`. -/
lemma list_tickets_changed (ctx : Ctx) (db : DB) (limit offset : ℕ) :
    (list_tickets ctx db limit offset).2.1 =
      (((sortByCreatedDesc db.tickets).drop offset).take limit).any
        (fun t => (ensure_calculated_fields t true ctx.table).2) := by
  simp only [list_tickets, any_map_eq]

/-- The commit flag of `list_active_tickets`. -/
lemma list_active_changed (ctx : Ctx) (db : DB) (ck : Option String)
    (limit offset : ℕ) :
    (list_active_tickets ctx db ck limit offset).2.1 =
      (((sortByCreatedDesc (db.tickets.filter (activeFilter ck))).drop offset).take
        limit).any (fun t => (ensure_calculated_fields t true ctx.table).2) := by
  simp only [list_active_tickets, any_map_eq]

/-- A refreshed row's `calculated_value` is the formatted amount computed from
the row itself (the refresh touches no field the amount depends on). -/
lemma ensure_calc_value_self (t : Ticket) (b : Bool) (tbl : ClientTable) :
    (ensure_calculated_fields t b tbl).1.calculated_value =
      format_decimal
        (calculate_ticket_amount (ensure_calculated_fields t b tbl).1 tbl) := by
  obtain ⟨cv, iv, ef⟩ := ensure_calculated_fields_frame t b tbl
  rw [ensure_calc_value, ef, calculate_amount_frame t tbl cv iv]

/-- `C8`: a non-blank `invoiced_total` is sticky.  The field-refresh helper
keeps a non-blank value and seeds a blank one with the formatted computed
amount; `update_ticket` without an `invoiced_total` key in the payload keeps
the stored non-blank value; `create_entry` keeps a supplied non-blank
normalized value; and both listings hand back rows whose non-blank
`invoiced_total` is exactly the stored one. -/
theorem invoiced_total_sticky (ctx : Ctx) :
    (∀ t b, strTruthyOpt t.invoiced_total = true →
      (ensure_calculated_fields t b ctx.table).1.invoiced_total =
        t.invoiced_total) ∧
    (∀ t v, strTruthyOpt t.invoiced_total = false →
      format_decimal (calculate_ticket_amount t ctx.table) = some v →
      (ensure_calculated_fields t true ctx.table).1.invoiced_total = some v) ∧
    (∀ db tid p db2 t, p.invoiced_total = none →
      update_ticket ctx db tid p = (db2, Except.ok t) →
      ∃ t0, db.tickets.find? (fun x => x.id == tid) = some t0 ∧
        (strTruthyOpt t0.invoiced_total = true →
          t.invoiced_total = t0.invoiced_total)) ∧
    (∀ db p db2 t v, create_entry ctx db p = (db2, Except.ok t) →
      normalize_currency_input
        (match p.invoiced_total with | some w => w | none => PyV.vNone) = some v →
      strTruthyOpt (some v) = true →
      t.invoiced_total = some v) ∧
    (∀ db limit offset r, r ∈ (list_tickets ctx db limit offset).2.2 →
      ∃ t ∈ ((sortByCreatedDesc db.tickets).drop offset).take limit,
        r = (ensure_calculated_fields t true ctx.table).1 ∧
        (strTruthyOpt t.invoiced_total = true →
          r.invoiced_total = t.invoiced_total)) ∧
    (∀ db ck limit offset r, r ∈ (list_active_tickets ctx db ck limit offset).2.2 →
      ∃ t ∈ ((sortByCreatedDesc (db.tickets.filter (activeFilter ck))).drop
          offset).take limit,
        r = (ensure_calculated_fields t true ctx.table).1 ∧
        (strTruthyOpt t.invoiced_total = true →
          r.invoiced_total = t.invoiced_total)) := by
  refine ⟨?_, ?_, ?_, ?_, ?_, ?_⟩
  · intro t b hb
    exact ensure_invoiced_nonblank t b ctx.table hb
  · intro t v hb hv
    rw [ensure_invoiced_seed t ctx.table hb, hv]
  · intro db tid p db2 t hp hup
    obtain ⟨t0, t5, hfind, hens, _, hinv, _, _⟩ :=
      update_ticket_ok_spec ctx db tid p db2 t hup
    refine ⟨t0, hfind, ?_⟩
    intro hnb
    have h5 : t5.invoiced_total = t0.invoiced_total := by rw [hinv, hp]
    have hb5 : strTruthyOpt t5.invoiced_total = true := by rw [h5]; exact hnb
    have hflag : (!(strTruthyOpt t5.invoiced_total)) = false := by rw [hb5]; rfl
    rw [hens, hflag, ensure_invoiced_noinit, h5]
  · intro db p db2 t v hc hnorm hnb
    obtain ⟨t5, hens, _, _, _, hinv⟩ := create_entry_ok_spec ctx db p db2 t hc
    have h5 : t5.invoiced_total = some v := by rw [hinv, hnorm]
    rw [hens, ensure_invoiced_nonblank t5 true ctx.table (by rw [h5]; exact hnb), h5]
  · intro db limit offset r hr
    rw [list_tickets_rows] at hr
    obtain ⟨t, htm, heq⟩ := List.mem_map.mp hr
    subst heq
    exact ⟨t, htm, rfl, fun hb => ensure_invoiced_nonblank t true ctx.table hb⟩
  · intro db ck limit offset r hr
    rw [list_active_rows] at hr
    obtain ⟨t, htm, heq⟩ := List.mem_map.mp hr
    subst heq
    exact ⟨t, htm, rfl, fun hb => ensure_invoiced_nonblank t true ctx.table hb⟩

def tS : Ticket :=
  { emptyTicket with id := 1, invoiced_total := some "50.00", created_at := "t1" }

def dbS : DB :=
  { tickets := [tS], hardware := [], events := [], next_ticket_id := 2,
    next_event_id := 1, now := "N" }

def dbS2 : DB := (update_ticket ctxC2 dbS 1 {}).1

def tS2 : Ticket := ((update_ticket ctxC2 dbS 1 {}).2.toOption).getD emptyTicket

/-- Witness for C8: updating a ticket whose `invoiced_total` is `"50.00"` with
an empty payload leaves the value in place. -/
theorem invoiced_total_sticky_witness :
    strTruthyOpt tS.invoiced_total = true ∧
    (ensure_calculated_fields tS true ctxC2.table).1.invoiced_total =
      tS.invoiced_total ∧
    update_ticket ctxC2 dbS 1 {} = (dbS2, Except.ok tS2) ∧
    tS2.invoiced_total = tS.invoiced_total := by
  have hb : strTruthyOpt tS.invoiced_total = true := by with_unfolding_all decide
  have hup : update_ticket ctxC2 dbS 1 {} = (dbS2, Except.ok tS2) := by
    with_unfolding_all decide
  obtain ⟨c1, c2, c3, _, _, _⟩ := invoiced_total_sticky ctxC2
  obtain ⟨t0, hfind, hst⟩ := c3 dbS 1 {} dbS2 tS2 rfl hup
  have ht0 : t0 = tS := by
    have h2 : dbS.tickets.find? (fun x => x.id == (1:ℤ)) = some tS := by
      with_unfolding_all decide
    rw [h2, Option.some.injEq] at hfind
    exact hfind.symm
  subst ht0
  exact ⟨hb, c1 tS true hb, hup, hst hb⟩

/-- `C9`: every error raised by `create_entry` leaves the store exactly as it
was: no ticket row is added and no inventory event is written.  (The only
write happens after all validation passes, and the inventory sync that
follows it cannot raise.) -/
theorem create_entry_error_no_persist (ctx : Ctx) (db : DB) (p : Payload)
    (db2 : DB) (e : String)
    (h : create_entry ctx db p = (db2, Except.error e)) :
    db2 = db ∧ db2.tickets = db.tickets ∧ db2.events = db.events := by
  suffices hdb : db2 = db by exact ⟨hdb, by rw [hdb], by rw [hdb]⟩
  unfold create_entry at h
  dsimp only at h
  split at h
  · exact (congrArg Prod.fst h).symm
  · split at h
    · exact (congrArg Prod.fst h).symm
    · rename_i start_val hsv
      split at h
      · exact (congrArg Prod.fst h).symm
      · rename_i t1 h1
        split at h
        · exact (congrArg Prod.fst h).symm
        · rename_i t2 h2
          split at h
          · exact (congrArg Prod.fst h).symm
          · rename_i t3 h3
            split at h
            · exact (congrArg Prod.fst h).symm
            · rename_i t4 h4
              split at h
              · exact absurd (congrArg Prod.snd h) (by simp)
              · rename_i e2 hsync
                rw [sync_ticket_inventory_ok] at hsync
                exact Except.noConfusion hsync

def dbE : DB := (create_entry ctxC2 dbC2 ({} : Payload)).1

/-- Witness for C9: an empty payload fails with `client_key is required` and
the store comes back untouched. -/
theorem create_entry_error_no_persist_witness :
    create_entry ctxC2 dbC2 {} = (dbE, Except.error "client_key is required") ∧
    dbE = dbC2 ∧ dbE.tickets = dbC2.tickets ∧ dbE.events = dbC2.events := by
  have h : create_entry ctxC2 dbC2 {} =
      (dbE, Except.error "client_key is required") := by
    with_unfolding_all decide
  obtain ⟨h1, h2, h3⟩ :=
    create_entry_error_no_persist ctxC2 dbC2 {} dbE "client_key is required" h
  exact ⟨h, h1, h2, h3⟩

/-- `C10`: both listings refresh every returned row (its `calculated_value`
equals the freshly computed formatted amount), write the refreshed rows back
into the store, and report a commit exactly when some page row actually
changed (a differing `calculated_value` or a seeded blank `invoiced_total`). -/
theorem listing_recompute_and_persist (ctx : Ctx) (db : DB) (ck : Option String)
    (limit offset : ℕ) :
    (∀ r ∈ (list_tickets ctx db limit offset).2.2,
      r.calculated_value =
        format_decimal (calculate_ticket_amount r ctx.table)) ∧
    (∀ r ∈ (list_active_tickets ctx db ck limit offset).2.2,
      r.calculated_value =
        format_decimal (calculate_ticket_amount r ctx.table)) ∧
    (list_tickets ctx db limit offset).2.2 =
      (((sortByCreatedDesc db.tickets).drop offset).take limit).map
        (fun t => (ensure_calculated_fields t true ctx.table).1) ∧
    (list_tickets ctx db limit offset).1.tickets =
      (sortByCreatedDesc db.tickets).take offset ++
        (list_tickets ctx db limit offset).2.2 ++
        ((sortByCreatedDesc db.tickets).drop offset).drop limit ∧
    (list_active_tickets ctx db ck limit offset).1.tickets =
      db.tickets.map (fun t =>
        match (list_active_tickets ctx db ck limit offset).2.2.find?
            (fun x => x.id == t.id) with
        | some nt => nt
        | none => t) ∧
    ((list_tickets ctx db limit offset).2.1 = true ↔
      ∃ t ∈ ((sortByCreatedDesc db.tickets).drop offset).take limit,
        (ensure_calculated_fields t true ctx.table).2 = true) ∧
    ((list_active_tickets ctx db ck limit offset).2.1 = true ↔
      ∃ t ∈ ((sortByCreatedDesc (db.tickets.filter (activeFilter ck))).drop
          offset).take limit,
        (ensure_calculated_fields t true ctx.table).2 = true) := by
  refine ⟨?_, ?_, list_tickets_rows ctx db limit offset, rfl, rfl, ?_, ?_⟩
  · intro r hr
    rw [list_tickets_rows] at hr
    obtain ⟨t, htm, heq⟩ := List.mem_map.mp hr
    subst heq
    exact ensure_calc_value_self t true ctx.table
  · intro r hr
    rw [list_active_rows] at hr
    obtain ⟨t, htm, heq⟩ := List.mem_map.mp hr
    subst heq
    exact ensure_calc_value_self t true ctx.table
  · rw [list_tickets_changed]
    exact List.any_eq_true
  · rw [list_active_changed]
    exact List.any_eq_true

end TimeTracker
